import Mathlib

/-!
# ctkDICOMBrowser: navigation, selection, import, schema update, removal and search

A shallow embedding of `Libs/DICOM/Widgets/ctkDICOMBrowser.cpp`.

* C++ `int` values are integers; `+`, `-` and `++` are taken modulo `2^32`
  (two's complement, `toInt32`), `%` is the truncating remainder and is the
  only operation that can fault (remainder by zero).
* The widgets and services the browser talks to (image preview, thumbnails,
  indexer, message box, ...) are collaborators: every call made on one of them
  is appended, in program order, to the `calls` log of the browser state.
* `ctkDICOMModel` is declared outside this file of the repository; its
  `parent`, `index`, `rowCount` and `data` functions are parameters.
-/

set_option linter.unusedVariables false

/-! ## Machine integers -/

/-- Largest value of a C++ `int`. -/
def INT_MAX : Int := 2147483647

/-- Two's complement wrap of an integer into the range of a C++ `int`. -/
def toInt32 (x : Int) : Int := (x + 2147483648) % 4294967296 - 2147483648

/-- What can go wrong in integer arithmetic of the handlers. -/
inductive Fault
  | moduloByZero
  deriving DecidableEq, Repr

deriving instance DecidableEq for Except

/-- The C++ remainder `a % b` on `int`: truncating, undefined for `b = 0`. -/
def cRem (a b : Int) : Except Fault Int :=
  if b = 0 then Except.error Fault.moduloByZero else Except.ok (Int.tmod a b)

/-! ## Model indexes -/

/-- What `QModelIndex::model()` points to: nothing, the browser's
`ctkDICOMModel`, or some other item model (for which
`qobject_cast<const ctkDICOMModel*>` yields null). -/
inductive ModelPtr
  | null
  | dicomModel
  | otherModel
  deriving DecidableEq, Repr

/-- A `QModelIndex`: row, column, internal id and model pointer. -/
structure QModelIndex where
  r : Int
  c : Int
  p : Nat
  m : ModelPtr
  deriving DecidableEq, Repr

/-- Modelled from the spec: `ctkDICOMModel::IndexType`, declared in
ctkDICOMModel.h which is not part of the sources at hand; the four levels of
the hierarchy plus the root. -/
inductive IndexType
  | RootType
  | PatientType
  | StudyType
  | SeriesType
  | ImageType
  deriving DecidableEq, Repr

/-- The functions of `ctkDICOMModel` the browser calls. `data_TypeRole i` is
`data(i, ctkDICOMModel::TypeRole)` read as an `IndexType` (`none` when the
variant equals none of the enumerators), `data_UIDRole i` is
`data(i, ctkDICOMModel::UIDRole).toString()`. -/
structure ctkDICOMModel where
  parent : QModelIndex → QModelIndex
  index : Int → Int → QModelIndex → QModelIndex
  rowCount : QModelIndex → Int
  data_TypeRole : QModelIndex → Option IndexType
  data_UIDRole : QModelIndex → String

namespace QModelIndex

/-- The default constructed index `QModelIndex()`. -/
def invalid : QModelIndex := { r := -1, c := -1, p := 0, m := ModelPtr.null }

/-- Qt: `isValid()` is `r >= 0 && c >= 0 && m != 0`. -/
def isValid (i : QModelIndex) : Bool :=
  decide (0 ≤ i.r) && decide (0 ≤ i.c) && decide (i.m ≠ ModelPtr.null)

/-- Qt: `row()`. -/
def row (i : QModelIndex) : Int := i.r

/-- Qt: `column()`. -/
def column (i : QModelIndex) : Int := i.c

/-- Qt: `parent()` is `m ? m->parent(*this) : QModelIndex()`; `M` holds the
functions of the model the index belongs to. -/
def parent (M : ctkDICOMModel) (i : QModelIndex) : QModelIndex :=
  if i.m = ModelPtr.null then invalid else M.parent i

/-- Qt: `sibling(row, column)` is
`m ? (r == row && c == column) ? *this : m->index(row, column, m->parent(*this)) : QModelIndex()`. -/
def sibling (M : ctkDICOMModel) (i : QModelIndex) (arow acolumn : Int) : QModelIndex :=
  if i.m = ModelPtr.null then invalid
  else if i.r = arow ∧ i.c = acolumn then i
  else M.index arow acolumn (M.parent i)

end QModelIndex

/-- Result of `qobject_cast<const ctkDICOMModel*>(index.model())`: non-null
exactly when the index belongs to the `ctkDICOMModel`. -/
def castToDICOMModel (i : QModelIndex) : Bool := decide (i.m = ModelPtr.dicomModel)

/-! ## Browser state -/

/-- What the `ctkDICOMModel` of the browser is bound to by `setDatabase`:
the member `EmptyDatabase` (a default `QSqlDatabase`, used to suspend the
model; a model that was never bound is in the same condition), or the
connection `d->DICOMDatabase->database()`, recorded with the file that
was open when the model was bound (`none` when the database was closed). -/
inductive ModelDatabase
  | EmptyDatabase
  | DICOMDatabase_database (fileName : Option String)
  deriving DecidableEq, Repr

/-- Calls the browser makes on its collaborators. -/
inductive Call
  | ImagePreview_onModelSelected (i : QModelIndex)
  | ImagePreview_displayImage (v : Int)
  | ImagePreview_clearImages
  | ThumbnailsWidget_selectThumbnailFromIndex (i : QModelIndex)
  | ThumbnailsWidget_addThumbnails (i : QModelIndex)
  | ThumbnailsWidget_clearThumbnails
  | IndexerProgress_show
  | IndexerProgress_setValue (v : Int)
  | IndexerProgress_setLabelText (t : String)
  | IndexerProgress_close
  | DICOMIndexer_addDirectory (directory targetDirectory : String)
  | DICOMIndexer_cancel
  | DICOMModel_reset
  | emit_directoryImported
  | QMessageBox_information (title message : String)
  | UpdateSchemaProgress_show
  | UpdateSchemaProgress_setMaximum (v : Int)
  | UpdateSchemaProgress_setValue (v : Int)
  | UpdateSchemaProgress_setLabelText (t : String)
  | UpdateSchemaProgress_close
  | DICOMDatabase_closeDatabase
  | DICOMDatabase_openDatabase (databaseFileName : String)
  | DICOMDatabase_updateSchemaIfNeeded
  | DICOMDatabase_removeSeries (seriesUID : String)
  | DICOMDatabase_removeStudy (studyUID : String)
  | DICOMDatabase_removePatient (patientUID : String)
  | DICOMModel_setDatabase (db : ModelDatabase) (parameters : Option String)
  | DICOMModel_setEndLevel (level : IndexType)
  | TreeView_resizeColumnToContents (column : Int)
  | QueryRetrieveWidget_setRetrieveDatabase
  | DirectoryButton_setDirectory (directory : String)
  | ThumbnailsWidget_setDatabaseDirectory (directory : String)
  | ImagePreview_setDatabaseDirectory (directory : String)
  | emit_databaseDirectoryChanged (directory : String)
  | std_cerr (text : String)
  deriving DecidableEq, Repr

/-- A `QSlider` as far as the browser uses it. -/
structure QSlider where
  minimum : Int := 0
  maximum : Int := 99
  value : Int := 0
  deriving DecidableEq, Repr

/-- The members of `ctkDICOMBrowserPrivate` (and of the generated
`Ui_ctkDICOMBrowser`) read or written by the handlers below, with the values
the constructors give them, plus the log of calls on collaborators. A button
field is `true` when the button is shown; a dialog field is `true` once the
dialog has been created (its pointer is not 0). `DICOMModel_database` is the
binding of the member `DICOMModel`, `DICOMDatabase_openFile` the file the
`ctkDICOMDatabase` has open (`none` when closed), and
`settings_DatabaseDirectory` the value of the key "DatabaseDirectory" of
`QSettings`. -/
structure ctkDICOMBrowserPrivate where
  NextImageButton : Bool := false
  PrevImageButton : Bool := false
  NextSeriesButton : Bool := false
  PrevSeriesButton : Bool := false
  NextStudyButton : Bool := false
  PrevStudyButton : Bool := false
  ActionRemove : Bool := false
  PlaySlider : QSlider := {}
  IndexerProgress : Bool := false
  DisplayImportSummary : Bool := true
  PatientsAddedDuringImport : Int := 0
  StudiesAddedDuringImport : Int := 0
  SeriesAddedDuringImport : Int := 0
  InstancesAddedDuringImport : Int := 0
  UpdateSchemaProgress : Bool := false
  DICOMModel_database : ModelDatabase := ModelDatabase.EmptyDatabase
  DICOMDatabase_openFile : Option String := none
  settings_DatabaseDirectory : String := ""
  calls : List Call := []
  deriving DecidableEq, Repr

namespace ctkDICOMBrowserPrivate

/-- Append one call on a collaborator to the log. -/
def call (d : ctkDICOMBrowserPrivate) (k : Call) : ctkDICOMBrowserPrivate :=
  { d with calls := d.calls ++ [k] }

/-- The call `d->PlaySlider->setValue(v)`: Qt clamps the value to `[minimum, maximum]`
and, when the value changes, emits `valueChanged(int)`, which the constructor
connected to `d->ImagePreview->displayImage(int)`. -/
def PlaySlider_setValue (d : ctkDICOMBrowserPrivate) (v : Int) : ctkDICOMBrowserPrivate :=
  let b := max d.PlaySlider.minimum (min v d.PlaySlider.maximum)
  if d.PlaySlider.value = b then d
  else ({ d with PlaySlider := { d.PlaySlider with value := b } }).call (Call.ImagePreview_displayImage b)

end ctkDICOMBrowserPrivate

/-- The nodes handed to `d->ImagePreview->onModelSelected`, oldest first. -/
def previewSelections (cs : List Call) : List QModelIndex :=
  cs.filterMap fun k => match k with
    | Call.ImagePreview_onModelSelected i => some i
    | _ => none

/-- The nodes handed to `d->ThumbnailsWidget->selectThumbnailFromIndex`. -/
def thumbnailSelections (cs : List Call) : List QModelIndex :=
  cs.filterMap fun k => match k with
    | Call.ThumbnailsWidget_selectThumbnailFromIndex i => some i
    | _ => none

/-- Signals that reach the browser: the four entity-added signals of
`ctkDICOMDatabase`, the three signals of `ctkDICOMIndexer`, and `canceled()`
of the progress dialog. -/
inductive Signal
  | patientAdded (databaseID : Int) (patientID patientName patientBirthDate : String)
  | studyAdded (studyUID : String)
  | seriesAdded (seriesUID : String)
  | instanceAdded (instanceUID : String)
  | progress (percent : Int)
  | indexingFilePath (filePath : String)
  | indexingComplete
  | canceled
  deriving DecidableEq, Repr

namespace ctkDICOMBrowser

/-! ## Navigation -/

/-- The index step of the three `onNext...` handlers:
`id = (id + 1) % count`. -/
def nextRow (count id : Int) : Except Fault Int :=
  cRem (toInt32 (id + 1)) count

/-- The index step of the three `onPrevious...` handlers:
`id--; if (id < 0) id += count;`. -/
def previousRow (count id : Int) : Int :=
  let id1 := toInt32 (id - 1)
  if id1 < 0 then toInt32 (id1 + count) else id1

/-- The part of `onNextImage` / `onPreviousImage` between computing the new
image id and resolving the sibling: move the slider when
`imageID > 0 && imageID < max`. -/
def updatePlaySlider (d : ctkDICOMBrowserPrivate) (imageID : Int) : ctkDICOMBrowserPrivate :=
  let max := d.PlaySlider.maximum
  if 0 < imageID ∧ imageID < max then d.PlaySlider_setValue imageID else d

/-- The common tail of all six handlers: hand the resolved index to the image
preview and to the thumbnails. -/
def selectIndex (d : ctkDICOMBrowserPrivate) (i : QModelIndex) : ctkDICOMBrowserPrivate :=
  (d.call (Call.ImagePreview_onModelSelected i)).call
    (Call.ThumbnailsWidget_selectThumbnailFromIndex i)

/-- Method `ctkDICOMBrowser::onNextImage`; `currentIndex` is
`d->ImagePreview->currentImageIndex()`. -/
def onNextImage (M : ctkDICOMModel) (currentIndex : QModelIndex)
    (d : ctkDICOMBrowserPrivate) : Except Fault ctkDICOMBrowserPrivate :=
  if currentIndex.isValid then
    if castToDICOMModel currentIndex then
      let seriesIndex := currentIndex.parent M
      let imageCount := M.rowCount seriesIndex
      let imageID := currentIndex.row
      match nextRow imageCount imageID with
      | Except.error e => Except.error e
      | Except.ok imageID =>
        let d := updatePlaySlider d imageID
        let nextIndex := currentIndex.sibling M imageID 0
        Except.ok (selectIndex d nextIndex)
    else Except.ok d
  else Except.ok d

/-- Method `ctkDICOMBrowser::onPreviousImage`. -/
def onPreviousImage (M : ctkDICOMModel) (currentIndex : QModelIndex)
    (d : ctkDICOMBrowserPrivate) : Except Fault ctkDICOMBrowserPrivate :=
  if currentIndex.isValid then
    if castToDICOMModel currentIndex then
      let seriesIndex := currentIndex.parent M
      let imageCount := M.rowCount seriesIndex
      let imageID := currentIndex.row
      let imageID := previousRow imageCount imageID
      let d := updatePlaySlider d imageID
      let prevIndex := currentIndex.sibling M imageID 0
      Except.ok (selectIndex d prevIndex)
    else Except.ok d
  else Except.ok d

/-- Method `ctkDICOMBrowser::onNextSeries`. -/
def onNextSeries (M : ctkDICOMModel) (currentIndex : QModelIndex)
    (d : ctkDICOMBrowserPrivate) : Except Fault ctkDICOMBrowserPrivate :=
  if currentIndex.isValid then
    if castToDICOMModel currentIndex then
      let seriesIndex := currentIndex.parent M
      let studyIndex := seriesIndex.parent M
      let seriesCount := M.rowCount studyIndex
      let seriesID := seriesIndex.row
      match nextRow seriesCount seriesID with
      | Except.error e => Except.error e
      | Except.ok seriesID =>
        let nextIndex := seriesIndex.sibling M seriesID 0
        Except.ok (selectIndex d nextIndex)
    else Except.ok d
  else Except.ok d

/-- Method `ctkDICOMBrowser::onPreviousSeries`. -/
def onPreviousSeries (M : ctkDICOMModel) (currentIndex : QModelIndex)
    (d : ctkDICOMBrowserPrivate) : Except Fault ctkDICOMBrowserPrivate :=
  if currentIndex.isValid then
    if castToDICOMModel currentIndex then
      let seriesIndex := currentIndex.parent M
      let studyIndex := seriesIndex.parent M
      let seriesCount := M.rowCount studyIndex
      let seriesID := seriesIndex.row
      let seriesID := previousRow seriesCount seriesID
      let prevIndex := seriesIndex.sibling M seriesID 0
      Except.ok (selectIndex d prevIndex)
    else Except.ok d
  else Except.ok d

/-- Method `ctkDICOMBrowser::onNextStudy`. -/
def onNextStudy (M : ctkDICOMModel) (currentIndex : QModelIndex)
    (d : ctkDICOMBrowserPrivate) : Except Fault ctkDICOMBrowserPrivate :=
  if currentIndex.isValid then
    if castToDICOMModel currentIndex then
      let seriesIndex := currentIndex.parent M
      let studyIndex := seriesIndex.parent M
      let patientIndex := studyIndex.parent M
      let studyCount := M.rowCount patientIndex
      let studyID := studyIndex.row
      match nextRow studyCount studyID with
      | Except.error e => Except.error e
      | Except.ok studyID =>
        let nextIndex := studyIndex.sibling M studyID 0
        Except.ok (selectIndex d nextIndex)
    else Except.ok d
  else Except.ok d

/-- Method `ctkDICOMBrowser::onPreviousStudy`. -/
def onPreviousStudy (M : ctkDICOMModel) (currentIndex : QModelIndex)
    (d : ctkDICOMBrowserPrivate) : Except Fault ctkDICOMBrowserPrivate :=
  if currentIndex.isValid then
    if castToDICOMModel currentIndex then
      let seriesIndex := currentIndex.parent M
      let studyIndex := seriesIndex.parent M
      let patientIndex := studyIndex.parent M
      let studyCount := M.rowCount patientIndex
      let studyID := studyIndex.row
      let studyID := previousRow studyCount studyID
      let prevIndex := studyIndex.sibling M studyID 0
      Except.ok (selectIndex d prevIndex)
    else Except.ok d
  else Except.ok d

/-! ## Selection -/

/-- Show or hide the six navigation buttons (image, series, study pairs). -/
def setNavigationButtons (d : ctkDICOMBrowserPrivate) (image series study : Bool) :
    ctkDICOMBrowserPrivate :=
  { d with
    NextImageButton := image
    PrevImageButton := image
    NextSeriesButton := series
    PrevSeriesButton := series
    NextStudyButton := study
    PrevStudyButton := study }

/-- Method `ctkDICOMBrowser::onModelSelected`. -/
def onModelSelected (M : ctkDICOMModel) (index : QModelIndex)
    (d : ctkDICOMBrowserPrivate) : ctkDICOMBrowserPrivate :=
  if castToDICOMModel index then
    let index0 := index.sibling M index.row 0
    let d :=
      if M.data_TypeRole index0 = some IndexType.PatientType then
        setNavigationButtons d true true true
      else if M.data_TypeRole index0 = some IndexType.StudyType then
        setNavigationButtons d true true false
      else if M.data_TypeRole index0 = some IndexType.SeriesType then
        setNavigationButtons d true false false
      else
        setNavigationButtons d false false false
    { d with
      ActionRemove :=
        decide (M.data_TypeRole index0 = some IndexType.SeriesType) ||
        decide (M.data_TypeRole index0 = some IndexType.StudyType) ||
        decide (M.data_TypeRole index0 = some IndexType.PatientType) }
  else
    { setNavigationButtons d false false false with ActionRemove := false }

/-! ## Import -/

/-- Method `ctkDICOMBrowser::displayImportSummary`. -/
def displayImportSummary (d : ctkDICOMBrowserPrivate) : Bool := d.DisplayImportSummary

/-- Method `ctkDICOMBrowser::setDisplayImportSummary`. -/
def setDisplayImportSummary (onOff : Bool) (d : ctkDICOMBrowserPrivate) :
    ctkDICOMBrowserPrivate :=
  { d with DisplayImportSummary := onOff }

/-- Method `ctkDICOMBrowser::patientsAddedDuringImport`. -/
def patientsAddedDuringImport (d : ctkDICOMBrowserPrivate) : Int := d.PatientsAddedDuringImport

/-- Method `ctkDICOMBrowser::studiesAddedDuringImport`. -/
def studiesAddedDuringImport (d : ctkDICOMBrowserPrivate) : Int := d.StudiesAddedDuringImport

/-- Method `ctkDICOMBrowser::seriesAddedDuringImport`. -/
def seriesAddedDuringImport (d : ctkDICOMBrowserPrivate) : Int := d.SeriesAddedDuringImport

/-- Method `ctkDICOMBrowser::instancesAddedDuringImport`. -/
def instancesAddedDuringImport (d : ctkDICOMBrowserPrivate) : Int := d.InstancesAddedDuringImport

/-- Method `ctkDICOMBrowser::onPatientAdded`: `++d->PatientsAddedDuringImport`. -/
def onPatientAdded (databaseID : Int) (patientID patientName patientBirthDate : String)
    (d : ctkDICOMBrowserPrivate) : ctkDICOMBrowserPrivate :=
  { d with PatientsAddedDuringImport := toInt32 (d.PatientsAddedDuringImport + 1) }

/-- Method `ctkDICOMBrowser::onStudyAdded`: `++d->StudiesAddedDuringImport`. -/
def onStudyAdded (studyUID : String) (d : ctkDICOMBrowserPrivate) : ctkDICOMBrowserPrivate :=
  { d with StudiesAddedDuringImport := toInt32 (d.StudiesAddedDuringImport + 1) }

/-- Method `ctkDICOMBrowser::onSeriesAdded`: `++d->SeriesAddedDuringImport`. -/
def onSeriesAdded (seriesUID : String) (d : ctkDICOMBrowserPrivate) : ctkDICOMBrowserPrivate :=
  { d with SeriesAddedDuringImport := toInt32 (d.SeriesAddedDuringImport + 1) }

/-- Method `ctkDICOMBrowser::onInstanceAdded`: `++d->InstancesAddedDuringImport`. -/
def onInstanceAdded (instanceUID : String) (d : ctkDICOMBrowserPrivate) : ctkDICOMBrowserPrivate :=
  { d with InstancesAddedDuringImport := toInt32 (d.InstancesAddedDuringImport + 1) }

/-- Method `ctkDICOMBrowser::onFileIndexed`: lets the event loop run
(`processEvents`) and logs the path; it touches no member of the browser.
Events processed here appear as further signals of the run. -/
def onFileIndexed (filePath : String) (d : ctkDICOMBrowserPrivate) : ctkDICOMBrowserPrivate := d

/-- Method `ctkDICOMBrowserPrivate::showIndexerDialog`: the dialog is created and
wired on first use (`IndexerProgress == 0`), then shown. -/
def showIndexerDialog (d : ctkDICOMBrowserPrivate) : ctkDICOMBrowserPrivate :=
  ({ d with IndexerProgress := true }).call Call.IndexerProgress_show

/-- Slots run for one signal, in connection order. The entity-added signals
are connected in the constructor of `ctkDICOMBrowser`; the indexer and dialog
signals are connected in `showIndexerDialog`, so they have receivers only once
the dialog exists. `canceled()` is connected to `DICOMIndexer::cancel` twice. -/
def deliver (d : ctkDICOMBrowserPrivate) (e : Signal) : ctkDICOMBrowserPrivate :=
  match e with
  | Signal.patientAdded databaseID patientID patientName patientBirthDate =>
      onPatientAdded databaseID patientID patientName patientBirthDate d
  | Signal.studyAdded studyUID => onStudyAdded studyUID d
  | Signal.seriesAdded seriesUID => onSeriesAdded seriesUID d
  | Signal.instanceAdded instanceUID => onInstanceAdded instanceUID d
  | Signal.progress percent =>
      if d.IndexerProgress then d.call (Call.IndexerProgress_setValue percent) else d
  | Signal.indexingFilePath filePath =>
      if d.IndexerProgress then
        onFileIndexed filePath (d.call (Call.IndexerProgress_setLabelText filePath))
      else d
  | Signal.indexingComplete =>
      if d.IndexerProgress then
        (((d.call Call.IndexerProgress_close).call Call.DICOMModel_reset).call
          Call.emit_directoryImported)
      else d
  | Signal.canceled =>
      if d.IndexerProgress then
        ((((d.call Call.DICOMIndexer_cancel).call Call.DICOMIndexer_cancel).call
          Call.DICOMModel_reset).call Call.emit_directoryImported)
      else d

/-- Deliver a sequence of signals in order. -/
def deliverAll (d : ctkDICOMBrowserPrivate) (run : List Signal) : ctkDICOMBrowserPrivate :=
  run.foldl deliver d

/-- The text of the import summary built at the end of `onImportDirectory`;
`toString` on an integer is its decimal rendering, as `QString::number`. -/
def importSummaryMessage (patients studies series instances : Int) : String :=
  "Directory import completed.\n\n" ++
  toString patients ++ " New Patients\n" ++
  toString studies ++ " New Studies\n" ++
  toString series ++ " New Series\n" ++
  toString instances ++ " New Instances\n"

/-- Method `ctkDICOMBrowser::onImportDirectory`. `directoryExists` is
`QDir(directory).exists()`, `copyOnImport` the state of the check box of
the import dialog, `databaseDirectory` is `d->DICOMDatabase->databaseDirectory()`
and `run` the signals delivered to the browser while
`d->DICOMIndexer->addDirectory` executes. -/
def onImportDirectory (directoryExists copyOnImport : Bool) (databaseDirectory : String)
    (directory : String) (run : List Signal) (d : ctkDICOMBrowserPrivate) :
    ctkDICOMBrowserPrivate :=
  if directoryExists then
    let targetDirectory := if copyOnImport then databaseDirectory else ""
    let d := { d with
      PatientsAddedDuringImport := 0
      StudiesAddedDuringImport := 0
      SeriesAddedDuringImport := 0
      InstancesAddedDuringImport := 0 }
    let d := showIndexerDialog d
    let d := d.call (Call.DICOMIndexer_addDirectory directory targetDirectory)
    let d := deliverAll d run
    if d.DisplayImportSummary then
      d.call (Call.QMessageBox_information "Importar directorio DICOM"
        (importSummaryMessage d.PatientsAddedDuringImport d.StudiesAddedDuringImport
          d.SeriesAddedDuringImport d.InstancesAddedDuringImport))
    else d
  else d

end ctkDICOMBrowser

/-- The messages shown with `QMessageBox::information`, oldest first. -/
def importSummaries (cs : List Call) : List String :=
  cs.filterMap fun k => match k with
    | Call.QMessageBox_information _ message => some message
    | _ => none

/-- How often `DICOMIndexer::cancel` was called. -/
def indexerCancels (cs : List Call) : Nat := cs.count Call.DICOMIndexer_cancel

namespace Signal

/-- The signal is `patientAdded`. -/
def isPatientAdded : Signal → Bool
  | patientAdded _ _ _ _ => true
  | _ => false

/-- The signal is `studyAdded`. -/
def isStudyAdded : Signal → Bool
  | studyAdded _ => true
  | _ => false

/-- The signal is `seriesAdded`. -/
def isSeriesAdded : Signal → Bool
  | seriesAdded _ => true
  | _ => false

/-- The signal is `instanceAdded`. -/
def isInstanceAdded : Signal → Bool
  | instanceAdded _ => true
  | _ => false

end Signal

/-! ## Navigation: the index steps -/

/-- The sibling of `node` at row `row`, column 0, under the parent of `node`:
`node` itself when it already is at that position, else the index the model
resolves at `(row, 0)` under the parent of `node`. -/
def siblingAt (M : ctkDICOMModel) (node : QModelIndex) (row : Int) : QModelIndex :=
  if node.r = row ∧ node.c = 0 then node else M.index row 0 (M.parent node)


/-- Apply a step that may fault `n` times. -/
def iterateStep (f : Int → Except Fault Int) : Nat → Int → Except Fault Int
  | 0, i => Except.ok i
  | n + 1, i =>
    match f i with
    | Except.error e => Except.error e
    | Except.ok j => iterateStep f n j

/-- The state `d1` extends `d` by handing exactly the node `i` to the image
preview (`onModelSelected`) and to the thumbnails
(`selectThumbnailFromIndex`). -/
def HandsOver (d d1 : ctkDICOMBrowserPrivate) (i : QModelIndex) : Prop :=
  previewSelections d1.calls = previewSelections d.calls ++ [i] ∧
  thumbnailSelections d1.calls = thumbnailSelections d.calls ++ [i]

instance (d d1 : ctkDICOMBrowserPrivate) (i : QModelIndex) : Decidable (HandsOver d d1 i) :=
  inferInstanceAs (Decidable (_ ∧ _))

/-! ## A concrete hierarchy

One patient with two studies of three series of four images each. The
internal id of an index spells the rows of its ancestors in decimal after a
leading 1: 1 for patients, `10 + a` for studies of patient `a`,
`100 + 10 a + b` for series of study `b` of patient `a`, and so on. -/

/-- Index creation of the concrete hierarchy. -/
def exampleIndex (row column : Int) (parent : QModelIndex) : QModelIndex :=
  if parent.m = ModelPtr.null then
    { r := row, c := column, p := 1, m := ModelPtr.dicomModel }
  else
    { r := row, c := column, p := parent.p * 10 + parent.r.toNat, m := ModelPtr.dicomModel }

/-- Parent of an index of the concrete hierarchy. -/
def exampleParent (i : QModelIndex) : QModelIndex :=
  if i.p < 10 then QModelIndex.invalid
  else { r := Int.ofNat (i.p % 10), c := 0, p := i.p / 10, m := ModelPtr.dicomModel }

/-- The concrete hierarchy; `rows` gives the number of children of the root,
of a patient, of a study and of a series. -/
def exampleModelWith (rows : Int × Int × Int × Int) : ctkDICOMModel :=
  { parent := exampleParent
    index := exampleIndex
    rowCount := fun i =>
      if i.m = ModelPtr.null then rows.1
      else if i.p < 10 then rows.2.1
      else if i.p < 100 then rows.2.2.1
      else if i.p < 1000 then rows.2.2.2
      else 0
    data_TypeRole := fun i =>
      if i.m = ModelPtr.null then some IndexType.RootType
      else if i.p < 10 then some IndexType.PatientType
      else if i.p < 100 then some IndexType.StudyType
      else if i.p < 1000 then some IndexType.SeriesType
      else some IndexType.ImageType
    data_UIDRole := fun i => toString i.p ++ "." ++ toString i.r }

/-- One patient, two studies each, three series each, four images each. -/
def exampleModel : ctkDICOMModel := exampleModelWith (1, 2, 3, 4)

/-- The last image (row 3) of the last series (row 2) of the last study
(row 1) of the patient (row 0). -/
def exampleImage : QModelIndex := { r := 3, c := 0, p := 1012, m := ModelPtr.dicomModel }

/-- The first image of the first series of the first study. -/
def exampleFirstImage : QModelIndex := { r := 0, c := 0, p := 1000, m := ModelPtr.dicomModel }

/-- The type the selection handler reads for an index: the `TypeRole` data of
the column-0 sibling of the index; `none` when the index does not belong to
the `ctkDICOMModel` (no model, so also every invalid index) or when the data
is none of the enumerators. -/
def selectedType (M : ctkDICOMModel) (index : QModelIndex) : Option IndexType :=
  if castToDICOMModel index then M.data_TypeRole (index.sibling M index.row 0) else none

/-- Which navigation is shown: the image pair, the series pair and the study
pair of buttons, each as (next, previous). -/
def navigationShown (d : ctkDICOMBrowserPrivate) : (Bool × Bool) × (Bool × Bool) × (Bool × Bool) :=
  ((d.NextImageButton, d.PrevImageButton),
   (d.NextSeriesButton, d.PrevSeriesButton),
   (d.NextStudyButton, d.PrevStudyButton))

/-- A series index (row 2 of study 1 of patient 0) in a column other than 0. -/
def exampleSeriesCell : QModelIndex := { r := 2, c := 3, p := 101, m := ModelPtr.dicomModel }

/-- The four counters as the getters report them: patients, studies, series,
instances. -/
def importCounters (d : ctkDICOMBrowserPrivate) : Int × Int × Int × Int :=
  (ctkDICOMBrowser.patientsAddedDuringImport d, ctkDICOMBrowser.studiesAddedDuringImport d,
   ctkDICOMBrowser.seriesAddedDuringImport d, ctkDICOMBrowser.instancesAddedDuringImport d)

/-- A run that is cancelled after the first file: one patient, one study, one
series and one instance were added, then the user cancels; the indexer never
signals completion. -/
def exampleCancelledRun : List Signal :=
  [Signal.indexingFilePath "/data/a.dcm",
   Signal.patientAdded 1 "P1" "Doe^John" "19700101",
   Signal.studyAdded "1.2",
   Signal.seriesAdded "1.2.3",
   Signal.instanceAdded "1.2.3.4",
   Signal.progress 50,
   Signal.indexingFilePath "/data/b.dcm",
   Signal.canceled]

/-- A run that completes: two instances of one series, then a second series
with one instance. -/
def exampleCompletedRun : List Signal :=
  [Signal.indexingFilePath "/data/a.dcm",
   Signal.patientAdded 1 "P1" "Doe^John" "19700101",
   Signal.studyAdded "1.2",
   Signal.seriesAdded "1.2.3",
   Signal.instanceAdded "1.2.3.4",
   Signal.indexingFilePath "/data/b.dcm",
   Signal.instanceAdded "1.2.3.5",
   Signal.indexingFilePath "/data/c.dcm",
   Signal.seriesAdded "1.2.6",
   Signal.instanceAdded "1.2.6.7",
   Signal.progress 100,
   Signal.indexingComplete]

/-! ## Import: the window of a run, and a second import inside it -/

namespace ctkDICOMBrowser

/-- The part of `onImportDirectory` for an existing directory up to and
including the call of `addDirectory`: the counters are reset, the progress
dialog is shown and the indexing is started. -/
def importStart (copyOnImport : Bool) (databaseDirectory directory : String)
    (d : ctkDICOMBrowserPrivate) : ctkDICOMBrowserPrivate :=
  let targetDirectory := if copyOnImport then databaseDirectory else ""
  let d := { d with
    PatientsAddedDuringImport := 0
    StudiesAddedDuringImport := 0
    SeriesAddedDuringImport := 0
    InstancesAddedDuringImport := 0 }
  let d := showIndexerDialog d
  d.call (Call.DICOMIndexer_addDirectory directory targetDirectory)

/-- The part of `onImportDirectory` after `addDirectory` has returned: the
summary, when `DisplayImportSummary` is set. -/
def importFinish (d : ctkDICOMBrowserPrivate) : ctkDICOMBrowserPrivate :=
  if d.DisplayImportSummary then
    d.call (Call.QMessageBox_information "Importar directorio DICOM"
      (importSummaryMessage d.PatientsAddedDuringImport d.StudiesAddedDuringImport
        d.SeriesAddedDuringImport d.InstancesAddedDuringImport))
  else d

end ctkDICOMBrowser

/-- What reaches the browser while `addDirectory` executes when the event
loop run by `onFileIndexed` (`processEvents`) may dispatch a directory chosen
in the import dialog: a signal, or an `indexingFilePath` signal during whose
`onFileIndexed` the signal `fileSelected(directory)` of the import dialog is
delivered to `onImportDirectory`; `inner` are the signals delivered while the
`addDirectory` of that second import executes. -/
inductive RunEvent
  | signal (e : Signal)
  | indexingFilePath_fileSelected (filePath : String) (directoryExists copyOnImport : Bool)
      (databaseDirectory directory : String) (inner : List Signal)
  deriving DecidableEq, Repr

namespace ctkDICOMBrowser

/-- Slots run for one event of a run in which a second import may start: for
`indexingFilePath` the label is set first, then `onFileIndexed` runs the event
loop, which calls `onImportDirectory`. -/
def deliverEvent (d : ctkDICOMBrowserPrivate) (e : RunEvent) : ctkDICOMBrowserPrivate :=
  match e with
  | RunEvent.signal e => deliver d e
  | RunEvent.indexingFilePath_fileSelected filePath directoryExists copyOnImport
      databaseDirectory directory inner =>
      if d.IndexerProgress then
        onFileIndexed filePath
          (onImportDirectory directoryExists copyOnImport databaseDirectory directory inner
            (d.call (Call.IndexerProgress_setLabelText filePath)))
      else d

/-- The handler `onImportDirectory` with a run in which a second import may
start; on runs of plain signals it is `onImportDirectory`. -/
def onImportDirectoryReentrant (directoryExists copyOnImport : Bool)
    (databaseDirectory directory : String) (run : List RunEvent)
    (d : ctkDICOMBrowserPrivate) : ctkDICOMBrowserPrivate :=
  if directoryExists then
    importFinish (run.foldl deliverEvent (importStart copyOnImport databaseDirectory directory d))
  else d

/-! ## Schema update and database directory -/

/-- Set the binding of the member `DICOMModel`:
`d->DICOMModel.setDatabase(db)` or, with search parameters,
`d->DICOMModel.setDatabase(db, parameters)`. -/
def DICOMModel_setDatabase (d : ctkDICOMBrowserPrivate) (db : ModelDatabase)
    (parameters : Option String) : ctkDICOMBrowserPrivate :=
  ({ d with DICOMModel_database := db }).call (Call.DICOMModel_setDatabase db parameters)

/-- The connection `d->DICOMDatabase->database()`. -/
def DICOMDatabase_database (d : ctkDICOMBrowserPrivate) : ModelDatabase :=
  ModelDatabase.DICOMDatabase_database d.DICOMDatabase_openFile

/-- The call `d->DICOMDatabase->closeDatabase()`. -/
def DICOMDatabase_closeDatabase (d : ctkDICOMBrowserPrivate) : ctkDICOMBrowserPrivate :=
  ({ d with DICOMDatabase_openFile := none }).call Call.DICOMDatabase_closeDatabase

/-- Method `ctkDICOMBrowser::suspendModel`. -/
def suspendModel (d : ctkDICOMBrowserPrivate) : ctkDICOMBrowserPrivate :=
  DICOMModel_setDatabase d ModelDatabase.EmptyDatabase none

/-- Method `ctkDICOMBrowser::resumeModel`. -/
def resumeModel (d : ctkDICOMBrowserPrivate) : ctkDICOMBrowserPrivate :=
  DICOMModel_setDatabase d (DICOMDatabase_database d) none

/-- Method `ctkDICOMBrowser::resetModel`. -/
def resetModel (d : ctkDICOMBrowserPrivate) : ctkDICOMBrowserPrivate :=
  d.call Call.DICOMModel_reset

/-- Method `ctkDICOMBrowserPrivate::showUpdateSchemaDialog`: the dialog is
created and wired on first use (`UpdateSchemaProgress == 0`), then shown. -/
def showUpdateSchemaDialog (d : ctkDICOMBrowserPrivate) : ctkDICOMBrowserPrivate :=
  ({ d with UpdateSchemaProgress := true }).call Call.UpdateSchemaProgress_show

end ctkDICOMBrowser

/-- Signals that reach the schema-update dialog and the model: the signals of
`ctkDICOMDatabase` about a schema update and `canceled()` of the dialog. -/
inductive SchemaSignal
  | schemaUpdateStarted (steps : Int)
  | schemaUpdateProgress (step : Int)
  | schemaUpdateProgressText (stage : String)
  | schemaUpdated
  | canceled
  deriving DecidableEq, Repr

namespace ctkDICOMBrowser

/-- Slots run for one schema signal, in connection order; the connections are
made in `showUpdateSchemaDialog`. -/
def deliverSchema (d : ctkDICOMBrowserPrivate) (e : SchemaSignal) : ctkDICOMBrowserPrivate :=
  if d.UpdateSchemaProgress then
    match e with
    | SchemaSignal.schemaUpdateStarted steps => d.call (Call.UpdateSchemaProgress_setMaximum steps)
    | SchemaSignal.schemaUpdateProgress step => d.call (Call.UpdateSchemaProgress_setValue step)
    | SchemaSignal.schemaUpdateProgressText stage =>
        d.call (Call.UpdateSchemaProgress_setLabelText stage)
    | SchemaSignal.schemaUpdated =>
        (d.call Call.UpdateSchemaProgress_close).call Call.DICOMModel_reset
    | SchemaSignal.canceled => d.call Call.DICOMModel_reset
  else d

/-- Method `ctkDICOMBrowser::updateDatabaseSchemaIfNeeded`; `run` are the
signals delivered while `d->DICOMDatabase->updateSchemaIfNeeded()` executes. -/
def updateDatabaseSchemaIfNeeded (run : List SchemaSignal) (d : ctkDICOMBrowserPrivate) :
    ctkDICOMBrowserPrivate :=
  let d := showUpdateSchemaDialog d
  let d := d.call Call.DICOMDatabase_updateSchemaIfNeeded
  run.foldl deliverSchema d

/-- Method `ctkDICOMBrowser::setDatabaseDirectory`. `openThrows` tells
whether `openDatabase` throws, `lastError` is `d->DICOMDatabase->lastError()`
and `schemaRun` the signals delivered during the schema update. What the
directory button does when its directory is set is not followed. -/
def setDatabaseDirectory (directory : String) (openThrows : Bool) (lastError : String)
    (schemaRun : List SchemaSignal) (d : ctkDICOMBrowserPrivate) : ctkDICOMBrowserPrivate :=
  let d := { d with settings_DatabaseDirectory := directory }
  let d := DICOMDatabase_closeDatabase d
  let databaseFileName := directory ++ "/ctkDICOM.sql"
  let d := d.call (Call.DICOMDatabase_openDatabase databaseFileName)
  if openThrows then
    let d := d.call (Call.std_cerr ("Database error: " ++ lastError ++ "\n"))
    DICOMDatabase_closeDatabase d
  else
    let d := { d with DICOMDatabase_openFile := some databaseFileName }
    let d := updateDatabaseSchemaIfNeeded schemaRun d
    let d := DICOMModel_setDatabase d (DICOMDatabase_database d) none
    let d := d.call (Call.DICOMModel_setEndLevel IndexType.SeriesType)
    let d := d.call (Call.TreeView_resizeColumnToContents 0)
    let d := d.call Call.QueryRetrieveWidget_setRetrieveDatabase
    let d := d.call (Call.DirectoryButton_setDirectory directory)
    let d := d.call (Call.ThumbnailsWidget_setDatabaseDirectory directory)
    let d := d.call (Call.ImagePreview_setDatabaseDirectory directory)
    d.call (Call.emit_databaseDirectoryChanged directory)

/-- Method `ctkDICOMBrowser::databaseDirectory`. -/
def databaseDirectory (d : ctkDICOMBrowserPrivate) : String := d.settings_DatabaseDirectory

/-! ## Removal and search -/

/-- The body of the loop of `onRemoveAction` for one selected index. -/
def removeIndex (M : ctkDICOMModel) (d : ctkDICOMBrowserPrivate) (index : QModelIndex) :
    ctkDICOMBrowserPrivate :=
  let index0 := index.sibling M index.row 0
  if M.data_TypeRole index0 = some IndexType.SeriesType then
    d.call (Call.DICOMDatabase_removeSeries (M.data_UIDRole index0))
  else if M.data_TypeRole index0 = some IndexType.StudyType then
    d.call (Call.DICOMDatabase_removeStudy (M.data_UIDRole index0))
  else if M.data_TypeRole index0 = some IndexType.PatientType then
    d.call (Call.DICOMDatabase_removePatient (M.data_UIDRole index0))
  else d

/-- Method `ctkDICOMBrowser::onRemoveAction`; `selection` is
`d->TreeView->selectionModel()->selectedIndexes()`. The two lines written to
`std::cout` are left out. -/
def onRemoveAction (M : ctkDICOMModel) (selection : List QModelIndex)
    (d : ctkDICOMBrowserPrivate) : ctkDICOMBrowserPrivate :=
  (selection.foldl (removeIndex M) d).call Call.DICOMModel_reset

/-- Method `ctkDICOMBrowser::onSearchParameterChanged`; `parameters` is
`d->SearchOption->parameters()` and `M` the model once the query has been
issued again with them. -/
def onSearchParameterChanged (M : ctkDICOMModel) (parameters : String)
    (d : ctkDICOMBrowserPrivate) : ctkDICOMBrowserPrivate :=
  let d := DICOMModel_setDatabase d (DICOMDatabase_database d) (some parameters)
  let d := onModelSelected M (M.index 0 0 QModelIndex.invalid) d
  let d := d.call Call.ThumbnailsWidget_clearThumbnails
  let d := d.call (Call.ThumbnailsWidget_addThumbnails (M.index 0 0 QModelIndex.invalid))
  let d := d.call Call.ImagePreview_clearImages
  d.call (Call.ImagePreview_onModelSelected (M.index 0 0 QModelIndex.invalid))

/-! ## The position slider -/

end ctkDICOMBrowser

/-! ## Reading the log of calls -/

/-- The calls appended to the log by a step from `d` to `d1`. -/
def newCalls (d d1 : ctkDICOMBrowserPrivate) : List Call := d1.calls.drop d.calls.length

/-- Whether every schema upgrade requested in `cs` (`updateSchemaIfNeeded` of
the database) takes place while the model is bound to the empty database;
`b` is the binding of the model before the first call of `cs`, and every
`setDatabase` in `cs` changes it. -/
def upgradesWhileSuspended (b : ModelDatabase) : List Call → Bool
  | [] => true
  | Call.DICOMDatabase_updateSchemaIfNeeded :: cs =>
      decide (b = ModelDatabase.EmptyDatabase) && upgradesWhileSuspended b cs
  | Call.DICOMModel_setDatabase db _ :: cs => upgradesWhileSuspended db cs
  | _ :: cs => upgradesWhileSuspended b cs

/-- The removals requested from the database, oldest first, as pairs of the
level removed and the unique identifier. -/
def removalRequests (cs : List Call) : List (IndexType × String) :=
  cs.filterMap fun k => match k with
    | Call.DICOMDatabase_removeSeries uid => some (IndexType.SeriesType, uid)
    | Call.DICOMDatabase_removeStudy uid => some (IndexType.StudyType, uid)
    | Call.DICOMDatabase_removePatient uid => some (IndexType.PatientType, uid)
    | _ => none

/-- The removal `onRemoveAction` owes for one selected index: the level and
unique identifier of the column-0 node of its row when that node is a series,
a study or a patient, and nothing otherwise. -/
def removalFor (M : ctkDICOMModel) (index : QModelIndex) : Option (IndexType × String) :=
  match M.data_TypeRole (index.sibling M index.row 0) with
  | some IndexType.SeriesType =>
      some (IndexType.SeriesType, M.data_UIDRole (index.sibling M index.row 0))
  | some IndexType.StudyType =>
      some (IndexType.StudyType, M.data_UIDRole (index.sibling M index.row 0))
  | some IndexType.PatientType =>
      some (IndexType.PatientType, M.data_UIDRole (index.sibling M index.row 0))
  | _ => none

/-- How often `addDirectory` of the indexer was called. -/
def indexingRuns (cs : List Call) : Nat :=
  cs.countP fun k => match k with
    | Call.DICOMIndexer_addDirectory _ _ => true
    | _ => false

/-! ## The dependent previews -/

/-- Modelled from the spec: the content of a dependent preview (the
thumbnails of `ctkDICOMThumbnailListWidget`, the image of the image preview
widget; both widgets are declared outside the sources). A preview is in the
cleared, empty state or populated for one node of the result set. -/
inductive PreviewContent
  | empty
  | populated (node : QModelIndex)
  deriving DecidableEq, Repr

/-- Modelled from the spec: whether the result set holds a node at the
position of the index, that is, the index is valid and its row is below the
row count of its parent. The renderers can populate a preview for such a node
only. -/
def holdsNode (M : ctkDICOMModel) (i : QModelIndex) : Bool :=
  i.isValid && decide (i.row < M.rowCount (i.parent M))

/-- Modelled from the spec: the content of the thumbnails after the calls
`cs`, from the content `c`: `clearThumbnails` clears to the empty state,
`addThumbnails` repopulates for the node handed over when the result set
holds it and has nothing to show otherwise. -/
def thumbnailsContent (M : ctkDICOMModel) (c : PreviewContent) (cs : List Call) :
    PreviewContent :=
  cs.foldl (fun c k => match k with
    | Call.ThumbnailsWidget_clearThumbnails => PreviewContent.empty
    | Call.ThumbnailsWidget_addThumbnails i =>
        if holdsNode M i then PreviewContent.populated i else c
    | _ => c) c

/-- Modelled from the spec: the content of the image preview after the calls
`cs`, from the content `c`: `clearImages` clears to the empty state,
`onModelSelected` repopulates for the node handed over when the result set
holds it and has nothing to show otherwise. -/
def imagePreviewContent (M : ctkDICOMModel) (c : PreviewContent) (cs : List Call) :
    PreviewContent :=
  cs.foldl (fun c k => match k with
    | Call.ImagePreview_clearImages => PreviewContent.empty
    | Call.ImagePreview_onModelSelected i =>
        if holdsNode M i then PreviewContent.populated i else c
    | _ => c) c

/-- The first patient of the concrete hierarchy. -/
def examplePatient : QModelIndex := { r := 0, c := 0, p := 1, m := ModelPtr.dicomModel }

/-- An empty result set: the concrete hierarchy without any patient. -/
def exampleEmptyModel : ctkDICOMModel := exampleModelWith (0, 0, 0, 0)

/-- A browser whose database `/db/ctkDICOM.sql` is open and whose model is
bound to it. -/
def exampleAttached : ctkDICOMBrowserPrivate :=
  { DICOMDatabase_openFile := some "/db/ctkDICOM.sql"
    DICOMModel_database := ModelDatabase.DICOMDatabase_database (some "/db/ctkDICOM.sql")
    settings_DatabaseDirectory := "/db" }

/-- A run during which a second import is started: after the first file of
`/data` (one patient, study, series and instance) the directory `/other` is
chosen in the import dialog while the second file is announced; its run adds
one instance; the first run then adds one more instance and completes. -/
def exampleReentrantRun : List RunEvent :=
  [RunEvent.signal (Signal.indexingFilePath "/data/a.dcm"),
   RunEvent.signal (Signal.patientAdded 1 "P1" "Doe^John" "19700101"),
   RunEvent.signal (Signal.studyAdded "1.2"),
   RunEvent.signal (Signal.seriesAdded "1.2.3"),
   RunEvent.signal (Signal.instanceAdded "1.2.3.4"),
   RunEvent.indexingFilePath_fileSelected "/data/b.dcm" true false "/db" "/other"
     [Signal.indexingFilePath "/other/z.dcm", Signal.instanceAdded "9.9", Signal.indexingComplete],
   RunEvent.signal (Signal.instanceAdded "1.2.3.5"),
   RunEvent.signal Signal.indexingComplete]

/-- A selection of four cells: two cells of a series row, a cell of a study
row and an image. -/
def exampleSelection : List QModelIndex :=
  [{ r := 2, c := 0, p := 101, m := ModelPtr.dicomModel },
   { r := 2, c := 3, p := 101, m := ModelPtr.dicomModel },
   { r := 1, c := 1, p := 10, m := ModelPtr.dicomModel },
   exampleImage]

/-! # Theorems -/

open ctkDICOMBrowser

/-! ## Arithmetic of the index steps -/

theorem toInt32_of_range (x : Int) (h1 : -2147483648 ≤ x) (h2 : x ≤ 2147483647) :
    toInt32 x = x := by
  unfold toInt32
  omega

theorem nextRow_eq (count id : Int) (h1 : 1 ≤ count) (hmax : count ≤ INT_MAX)
    (h0 : 0 ≤ id) (hlt : id < count) :
    nextRow count id = Except.ok ((id + 1) % count) := by
  unfold INT_MAX at hmax
  have hw : toInt32 (id + 1) = id + 1 := toInt32_of_range _ (by omega) (by omega)
  have hc : count ≠ 0 := by omega
  unfold nextRow cRem
  rw [hw, if_neg hc, Int.tmod_eq_emod (by omega) (by omega)]

theorem previousRow_eq (count id : Int) (h1 : 1 ≤ count) (hmax : count ≤ INT_MAX)
    (h0 : 0 ≤ id) (hlt : id < count) :
    previousRow count id = (id - 1 + count) % count := by
  unfold INT_MAX at hmax
  have hw : toInt32 (id - 1) = id - 1 := toInt32_of_range _ (by omega) (by omega)
  unfold previousRow
  simp only [hw]
  by_cases hneg : id - 1 < 0
  · have hid : id = 0 := by omega
    subst hid
    rw [if_pos hneg, toInt32_of_range _ (by omega) (by omega)]
    exact (Int.emod_eq_of_lt (by omega) (by omega)).symm
  · rw [if_neg hneg, Int.add_emod_self]
    exact (Int.emod_eq_of_lt (by omega) (by omega)).symm

theorem emod_range (count x : Int) (h1 : 1 ≤ count) :
    0 ≤ x % count ∧ x % count < count :=
  ⟨Int.emod_nonneg _ (by omega), Int.emod_lt_of_pos _ (by omega)⟩

/-! ## What the navigation handlers hand to the collaborators -/

theorem previewSelections_updatePlaySlider (d : ctkDICOMBrowserPrivate) (v : Int) :
    previewSelections (updatePlaySlider d v).calls = previewSelections d.calls := by
  unfold updatePlaySlider ctkDICOMBrowserPrivate.PlaySlider_setValue
  dsimp only
  split_ifs <;> simp [previewSelections, ctkDICOMBrowserPrivate.call, List.filterMap_append]

theorem thumbnailSelections_updatePlaySlider (d : ctkDICOMBrowserPrivate) (v : Int) :
    thumbnailSelections (updatePlaySlider d v).calls = thumbnailSelections d.calls := by
  unfold updatePlaySlider ctkDICOMBrowserPrivate.PlaySlider_setValue
  dsimp only
  split_ifs <;> simp [thumbnailSelections, ctkDICOMBrowserPrivate.call, List.filterMap_append]

theorem previewSelections_selectIndex (d : ctkDICOMBrowserPrivate) (i : QModelIndex) :
    previewSelections (selectIndex d i).calls = previewSelections d.calls ++ [i] := by
  simp [selectIndex, previewSelections, ctkDICOMBrowserPrivate.call, List.filterMap_append]

theorem thumbnailSelections_selectIndex (d : ctkDICOMBrowserPrivate) (i : QModelIndex) :
    thumbnailSelections (selectIndex d i).calls = thumbnailSelections d.calls ++ [i] := by
  simp [selectIndex, thumbnailSelections, ctkDICOMBrowserPrivate.call, List.filterMap_append]

theorem isValid_iff (i : QModelIndex) :
    i.isValid = true ↔ 0 ≤ i.r ∧ 0 ≤ i.c ∧ i.m ≠ ModelPtr.null := by
  simp [QModelIndex.isValid, and_assoc]

theorem sibling_eq_siblingAt (M : ctkDICOMModel) (i : QModelIndex) (row : Int)
    (hm : i.m ≠ ModelPtr.null) : i.sibling M row 0 = siblingAt M i row := by
  simp [QModelIndex.sibling, siblingAt, hm]

theorem handsOver_selectIndex (d : ctkDICOMBrowserPrivate) (i : QModelIndex) :
    HandsOver d (selectIndex d i) i :=
  ⟨previewSelections_selectIndex d i, thumbnailSelections_selectIndex d i⟩

theorem handsOver_selectIndex_slider (d : ctkDICOMBrowserPrivate) (v : Int) (i : QModelIndex) :
    HandsOver d (selectIndex (updatePlaySlider d v) i) i := by
  unfold HandsOver
  rw [previewSelections_selectIndex, thumbnailSelections_selectIndex,
    previewSelections_updatePlaySlider, thumbnailSelections_updatePlaySlider]
  exact ⟨rfl, rfl⟩

theorem onNextImage_resolves (M : ctkDICOMModel) (cur : QModelIndex)
    (d : ctkDICOMBrowserPrivate)
    (hv : cur.isValid = true) (hm : castToDICOMModel cur = true)
    (h1 : 1 ≤ M.rowCount (cur.parent M)) (hmax : M.rowCount (cur.parent M) ≤ INT_MAX)
    (hlt : cur.row < M.rowCount (cur.parent M)) :
    ∃ d1, onNextImage M cur d = Except.ok d1 ∧
      HandsOver d d1 (siblingAt M cur ((cur.row + 1) % M.rowCount (cur.parent M))) := by
  obtain ⟨hr, _, hnull⟩ := (isValid_iff cur).1 hv
  have hstep := nextRow_eq _ cur.row h1 hmax hr hlt
  refine ⟨selectIndex (updatePlaySlider d ((cur.row + 1) % M.rowCount (cur.parent M)))
    (siblingAt M cur ((cur.row + 1) % M.rowCount (cur.parent M))), ?_,
    handsOver_selectIndex_slider d _ _⟩
  unfold onNextImage
  simp only [hv, hm, if_true, hstep, sibling_eq_siblingAt M cur _ hnull]

theorem onPreviousImage_resolves (M : ctkDICOMModel) (cur : QModelIndex)
    (d : ctkDICOMBrowserPrivate)
    (hv : cur.isValid = true) (hm : castToDICOMModel cur = true)
    (h1 : 1 ≤ M.rowCount (cur.parent M)) (hmax : M.rowCount (cur.parent M) ≤ INT_MAX)
    (hlt : cur.row < M.rowCount (cur.parent M)) :
    ∃ d1, onPreviousImage M cur d = Except.ok d1 ∧
      HandsOver d d1 (siblingAt M cur
        ((cur.row - 1 + M.rowCount (cur.parent M)) % M.rowCount (cur.parent M))) := by
  obtain ⟨hr, _, hnull⟩ := (isValid_iff cur).1 hv
  have hstep := previousRow_eq _ cur.row h1 hmax hr hlt
  refine ⟨selectIndex
    (updatePlaySlider d
      ((cur.row - 1 + M.rowCount (cur.parent M)) % M.rowCount (cur.parent M)))
    (siblingAt M cur
      ((cur.row - 1 + M.rowCount (cur.parent M)) % M.rowCount (cur.parent M))), ?_,
    handsOver_selectIndex_slider d _ _⟩
  unfold onPreviousImage
  simp only [hv, hm, if_true, hstep, sibling_eq_siblingAt M cur _ hnull]

theorem onNextSeries_resolves (M : ctkDICOMModel) (cur : QModelIndex)
    (d : ctkDICOMBrowserPrivate)
    (hv : cur.isValid = true) (hm : castToDICOMModel cur = true)
    (hs : (cur.parent M).isValid = true)
    (h1 : 1 ≤ M.rowCount ((cur.parent M).parent M))
    (hmax : M.rowCount ((cur.parent M).parent M) ≤ INT_MAX)
    (hlt : (cur.parent M).row < M.rowCount ((cur.parent M).parent M)) :
    ∃ d1, onNextSeries M cur d = Except.ok d1 ∧
      HandsOver d d1 (siblingAt M (cur.parent M)
        (((cur.parent M).row + 1) % M.rowCount ((cur.parent M).parent M))) := by
  obtain ⟨hr, _, hnull⟩ := (isValid_iff _).1 hs
  have hstep := nextRow_eq _ (cur.parent M).row h1 hmax hr hlt
  refine ⟨selectIndex d (siblingAt M (cur.parent M)
    (((cur.parent M).row + 1) % M.rowCount ((cur.parent M).parent M))), ?_,
    handsOver_selectIndex d _⟩
  unfold onNextSeries
  simp only [hv, hm, if_true, hstep, sibling_eq_siblingAt M _ _ hnull]

theorem onPreviousSeries_resolves (M : ctkDICOMModel) (cur : QModelIndex)
    (d : ctkDICOMBrowserPrivate)
    (hv : cur.isValid = true) (hm : castToDICOMModel cur = true)
    (hs : (cur.parent M).isValid = true)
    (h1 : 1 ≤ M.rowCount ((cur.parent M).parent M))
    (hmax : M.rowCount ((cur.parent M).parent M) ≤ INT_MAX)
    (hlt : (cur.parent M).row < M.rowCount ((cur.parent M).parent M)) :
    ∃ d1, onPreviousSeries M cur d = Except.ok d1 ∧
      HandsOver d d1 (siblingAt M (cur.parent M)
        (((cur.parent M).row - 1 + M.rowCount ((cur.parent M).parent M))
          % M.rowCount ((cur.parent M).parent M))) := by
  obtain ⟨hr, _, hnull⟩ := (isValid_iff _).1 hs
  have hstep := previousRow_eq _ (cur.parent M).row h1 hmax hr hlt
  refine ⟨selectIndex d (siblingAt M (cur.parent M)
    (((cur.parent M).row - 1 + M.rowCount ((cur.parent M).parent M))
      % M.rowCount ((cur.parent M).parent M))), ?_, handsOver_selectIndex d _⟩
  unfold onPreviousSeries
  simp only [hv, hm, if_true, hstep, sibling_eq_siblingAt M _ _ hnull]

theorem onNextStudy_resolves (M : ctkDICOMModel) (cur : QModelIndex)
    (d : ctkDICOMBrowserPrivate)
    (hv : cur.isValid = true) (hm : castToDICOMModel cur = true)
    (hs : ((cur.parent M).parent M).isValid = true)
    (h1 : 1 ≤ M.rowCount (((cur.parent M).parent M).parent M))
    (hmax : M.rowCount (((cur.parent M).parent M).parent M) ≤ INT_MAX)
    (hlt : ((cur.parent M).parent M).row < M.rowCount (((cur.parent M).parent M).parent M)) :
    ∃ d1, onNextStudy M cur d = Except.ok d1 ∧
      HandsOver d d1 (siblingAt M ((cur.parent M).parent M)
        ((((cur.parent M).parent M).row + 1)
          % M.rowCount (((cur.parent M).parent M).parent M))) := by
  obtain ⟨hr, _, hnull⟩ := (isValid_iff _).1 hs
  have hstep := nextRow_eq _ ((cur.parent M).parent M).row h1 hmax hr hlt
  refine ⟨selectIndex d (siblingAt M ((cur.parent M).parent M)
    ((((cur.parent M).parent M).row + 1)
      % M.rowCount (((cur.parent M).parent M).parent M))), ?_, handsOver_selectIndex d _⟩
  unfold onNextStudy
  simp only [hv, hm, if_true, hstep, sibling_eq_siblingAt M _ _ hnull]

theorem onPreviousStudy_resolves (M : ctkDICOMModel) (cur : QModelIndex)
    (d : ctkDICOMBrowserPrivate)
    (hv : cur.isValid = true) (hm : castToDICOMModel cur = true)
    (hs : ((cur.parent M).parent M).isValid = true)
    (h1 : 1 ≤ M.rowCount (((cur.parent M).parent M).parent M))
    (hmax : M.rowCount (((cur.parent M).parent M).parent M) ≤ INT_MAX)
    (hlt : ((cur.parent M).parent M).row < M.rowCount (((cur.parent M).parent M).parent M)) :
    ∃ d1, onPreviousStudy M cur d = Except.ok d1 ∧
      HandsOver d d1 (siblingAt M ((cur.parent M).parent M)
        ((((cur.parent M).parent M).row - 1 + M.rowCount (((cur.parent M).parent M).parent M))
          % M.rowCount (((cur.parent M).parent M).parent M))) := by
  obtain ⟨hr, _, hnull⟩ := (isValid_iff _).1 hs
  have hstep := previousRow_eq _ ((cur.parent M).parent M).row h1 hmax hr hlt
  refine ⟨selectIndex d (siblingAt M ((cur.parent M).parent M)
    ((((cur.parent M).parent M).row - 1 + M.rowCount (((cur.parent M).parent M).parent M))
      % M.rowCount (((cur.parent M).parent M).parent M))), ?_, handsOver_selectIndex d _⟩
  unfold onPreviousStudy
  simp only [hv, hm, if_true, hstep, sibling_eq_siblingAt M _ _ hnull]

/-- Replacing the row counts of the model by `rc` leaves `parent()` alone. -/
theorem parent_withRowCount (M : ctkDICOMModel) (rc : QModelIndex → Int) (i : QModelIndex) :
    i.parent { M with rowCount := rc } = i.parent M := rfl

theorem sibling_withRowCount (M : ctkDICOMModel) (rc : QModelIndex → Int) (i : QModelIndex)
    (a b : Int) : i.sibling { M with rowCount := rc } a b = i.sibling M a b := rfl

theorem onNextSeries_rowCount_local (M : ctkDICOMModel) (rc : QModelIndex → Int)
    (cur : QModelIndex) (d : ctkDICOMBrowserPrivate)
    (h : rc ((cur.parent M).parent M) = M.rowCount ((cur.parent M).parent M)) :
    onNextSeries { M with rowCount := rc } cur d = onNextSeries M cur d := by
  unfold onNextSeries
  simp only [parent_withRowCount, sibling_withRowCount, h]

theorem onNextImage_rowCount_local (M : ctkDICOMModel) (rc : QModelIndex → Int)
    (cur : QModelIndex) (d : ctkDICOMBrowserPrivate)
    (h : rc (cur.parent M) = M.rowCount (cur.parent M)) :
    onNextImage { M with rowCount := rc } cur d = onNextImage M cur d := by
  unfold onNextImage
  simp only [parent_withRowCount, sibling_withRowCount, h]

theorem onNextStudy_rowCount_local (M : ctkDICOMModel) (rc : QModelIndex → Int)
    (cur : QModelIndex) (d : ctkDICOMBrowserPrivate)
    (h : rc (((cur.parent M).parent M).parent M)
      = M.rowCount (((cur.parent M).parent M).parent M)) :
    onNextStudy { M with rowCount := rc } cur d = onNextStudy M cur d := by
  unfold onNextStudy
  simp only [parent_withRowCount, sibling_withRowCount, h]

/-! ## C1 and C2: the handlers resolve the wrapped-around sibling -/

/-- C1: for a valid current image index of the DICOM model and each of the
three levels, when the node at that level (the image itself, its series, its
study) is valid, has row `index` and its parent has `count` rows with
`1 <= count` (`count` a C++ int) and `index < count`, the `next` handler of
that level completes and hands to the image preview and the thumbnails the
sibling of that node at row `(index + 1) mod count`, column 0, under the same
parent. The handler reads the row count of no other index than that parent:
with any other row counts elsewhere (for instance another number of images
inside the series) it behaves the same. -/
theorem next_resolves_sibling_at_level (M : ctkDICOMModel) (cur : QModelIndex)
    (d : ctkDICOMBrowserPrivate)
    (hv : cur.isValid = true) (hm : castToDICOMModel cur = true) :
    (1 ≤ M.rowCount (cur.parent M) → M.rowCount (cur.parent M) ≤ INT_MAX →
      cur.row < M.rowCount (cur.parent M) →
      ∃ d1, onNextImage M cur d = Except.ok d1 ∧
        HandsOver d d1 (siblingAt M cur ((cur.row + 1) % M.rowCount (cur.parent M)))) ∧
    ((cur.parent M).isValid = true →
      1 ≤ M.rowCount ((cur.parent M).parent M) →
      M.rowCount ((cur.parent M).parent M) ≤ INT_MAX →
      (cur.parent M).row < M.rowCount ((cur.parent M).parent M) →
      ∃ d1, onNextSeries M cur d = Except.ok d1 ∧
        HandsOver d d1 (siblingAt M (cur.parent M)
          (((cur.parent M).row + 1) % M.rowCount ((cur.parent M).parent M)))) ∧
    (((cur.parent M).parent M).isValid = true →
      1 ≤ M.rowCount (((cur.parent M).parent M).parent M) →
      M.rowCount (((cur.parent M).parent M).parent M) ≤ INT_MAX →
      ((cur.parent M).parent M).row < M.rowCount (((cur.parent M).parent M).parent M) →
      ∃ d1, onNextStudy M cur d = Except.ok d1 ∧
        HandsOver d d1 (siblingAt M ((cur.parent M).parent M)
          ((((cur.parent M).parent M).row + 1)
            % M.rowCount (((cur.parent M).parent M).parent M)))) ∧
    (∀ rc : QModelIndex → Int,
      (rc (cur.parent M) = M.rowCount (cur.parent M) →
        onNextImage { M with rowCount := rc } cur d = onNextImage M cur d) ∧
      (rc ((cur.parent M).parent M) = M.rowCount ((cur.parent M).parent M) →
        onNextSeries { M with rowCount := rc } cur d = onNextSeries M cur d) ∧
      (rc (((cur.parent M).parent M).parent M)
          = M.rowCount (((cur.parent M).parent M).parent M) →
        onNextStudy { M with rowCount := rc } cur d = onNextStudy M cur d)) :=
  ⟨onNextImage_resolves M cur d hv hm,
   onNextSeries_resolves M cur d hv hm,
   onNextStudy_resolves M cur d hv hm,
   fun rc => ⟨onNextImage_rowCount_local M rc cur d,
     onNextSeries_rowCount_local M rc cur d,
     onNextStudy_rowCount_local M rc cur d⟩⟩

/-- C1 at the last image of the last series of the last study of the concrete
hierarchy: `next` wraps to row 0 at each level, and `next series` does so as
well when every series holds 400 images instead of 4. -/
theorem next_resolves_sibling_at_level_witness :
    (∃ d1, onNextImage exampleModel exampleImage {} = Except.ok d1 ∧
      HandsOver {} d1 { r := 0, c := 0, p := 1012, m := ModelPtr.dicomModel }) ∧
    (∃ d1, onNextSeries exampleModel exampleImage {} = Except.ok d1 ∧
      HandsOver {} d1 { r := 0, c := 0, p := 101, m := ModelPtr.dicomModel }) ∧
    (∃ d1, onNextStudy exampleModel exampleImage {} = Except.ok d1 ∧
      HandsOver {} d1 { r := 0, c := 0, p := 10, m := ModelPtr.dicomModel }) ∧
    onNextSeries (exampleModelWith (1, 2, 3, 400)) exampleImage {}
      = onNextSeries exampleModel exampleImage {} :=
  have h := next_resolves_sibling_at_level exampleModel exampleImage {}
    (by decide) (by decide)
  ⟨h.1 (by decide) (by decide) (by decide),
   h.2.1 (by decide) (by decide) (by decide) (by decide),
   h.2.2.1 (by decide) (by decide) (by decide) (by decide),
   (h.2.2.2 (exampleModelWith (1, 2, 3, 400)).rowCount).2.1 (by decide)⟩

/-- C2: for a valid current image index of the DICOM model and each of the
three levels, when the node at that level is valid, has row `index` and its
parent has `count` rows with `1 <= count` (`count` a C++ int) and
`index < count`, the `previous` handler of that level (decrement, then add
`count` when the result is negative) completes and hands to the image preview
and the thumbnails the sibling of that node at row
`(index - 1 + count) mod count`, column 0, under the same parent. -/
theorem previous_resolves_sibling_at_level (M : ctkDICOMModel) (cur : QModelIndex)
    (d : ctkDICOMBrowserPrivate)
    (hv : cur.isValid = true) (hm : castToDICOMModel cur = true) :
    (1 ≤ M.rowCount (cur.parent M) → M.rowCount (cur.parent M) ≤ INT_MAX →
      cur.row < M.rowCount (cur.parent M) →
      ∃ d1, onPreviousImage M cur d = Except.ok d1 ∧
        HandsOver d d1 (siblingAt M cur
          ((cur.row - 1 + M.rowCount (cur.parent M)) % M.rowCount (cur.parent M)))) ∧
    ((cur.parent M).isValid = true →
      1 ≤ M.rowCount ((cur.parent M).parent M) →
      M.rowCount ((cur.parent M).parent M) ≤ INT_MAX →
      (cur.parent M).row < M.rowCount ((cur.parent M).parent M) →
      ∃ d1, onPreviousSeries M cur d = Except.ok d1 ∧
        HandsOver d d1 (siblingAt M (cur.parent M)
          (((cur.parent M).row - 1 + M.rowCount ((cur.parent M).parent M))
            % M.rowCount ((cur.parent M).parent M)))) ∧
    (((cur.parent M).parent M).isValid = true →
      1 ≤ M.rowCount (((cur.parent M).parent M).parent M) →
      M.rowCount (((cur.parent M).parent M).parent M) ≤ INT_MAX →
      ((cur.parent M).parent M).row < M.rowCount (((cur.parent M).parent M).parent M) →
      ∃ d1, onPreviousStudy M cur d = Except.ok d1 ∧
        HandsOver d d1 (siblingAt M ((cur.parent M).parent M)
          ((((cur.parent M).parent M).row - 1
              + M.rowCount (((cur.parent M).parent M).parent M))
            % M.rowCount (((cur.parent M).parent M).parent M)))) :=
  ⟨onPreviousImage_resolves M cur d hv hm,
   onPreviousSeries_resolves M cur d hv hm,
   onPreviousStudy_resolves M cur d hv hm⟩

/-- C2 at the first image of the first series of the first study of the
concrete hierarchy: `previous` wraps to the last row at each level. -/
theorem previous_resolves_sibling_at_level_witness :
    (∃ d1, onPreviousImage exampleModel exampleFirstImage {} = Except.ok d1 ∧
      HandsOver {} d1 { r := 3, c := 0, p := 1000, m := ModelPtr.dicomModel }) ∧
    (∃ d1, onPreviousSeries exampleModel exampleFirstImage {} = Except.ok d1 ∧
      HandsOver {} d1 { r := 2, c := 0, p := 100, m := ModelPtr.dicomModel }) ∧
    (∃ d1, onPreviousStudy exampleModel exampleFirstImage {} = Except.ok d1 ∧
      HandsOver {} d1 { r := 1, c := 0, p := 10, m := ModelPtr.dicomModel }) :=
  have h := previous_resolves_sibling_at_level exampleModel exampleFirstImage {}
    (by decide) (by decide)
  ⟨h.1 (by decide) (by decide) (by decide),
   h.2.1 (by decide) (by decide) (by decide) (by decide),
   h.2.2 (by decide) (by decide) (by decide) (by decide)⟩

/-! ## C3 and C4: cycles and round trips of the index steps -/

theorem iterateStep_nextRow (n : Int) (hn : 1 ≤ n) (hmax : n ≤ INT_MAX) (k : Nat) :
    ∀ i : Int, 0 ≤ i → i < n →
      iterateStep (nextRow n) k i = Except.ok ((i + (k : Int)) % n) := by
  induction k with
  | zero =>
    intro i h0 hi
    simp only [iterateStep, Nat.cast_zero, add_zero]
    rw [Int.emod_eq_of_lt h0 hi]
  | succ k ih =>
    intro i h0 hi
    have hr := emod_range n (i + 1) hn
    simp only [iterateStep, nextRow_eq n i hn hmax h0 hi]
    rw [ih _ hr.1 hr.2, Int.emod_add_emod]
    congr 2
    push_cast
    ring

theorem iterate_previousRow (n : Int) (hn : 1 ≤ n) (hmax : n ≤ INT_MAX) (k : Nat) :
    ∀ i : Int, 0 ≤ i → i < n →
      Nat.iterate (previousRow n) k i = (i - (k : Int)) % n := by
  induction k with
  | zero =>
    intro i h0 hi
    simp only [Function.iterate_zero, id_eq, Nat.cast_zero, sub_zero]
    rw [Int.emod_eq_of_lt h0 hi]
  | succ k ih =>
    intro i h0 hi
    have hr := emod_range n (i - (k : Int)) hn
    rw [Function.iterate_succ_apply', ih i h0 hi,
      previousRow_eq n _ hn hmax hr.1 hr.2]
    have e1 : (i - (k : Int)) % n - 1 + n = (i - (k : Int)) % n + (n - 1) := by ring
    have e2 : i - (k : Int) + (n - 1) = i - ((k + 1 : Nat) : Int) + n := by
      push_cast
      ring
    rw [e1, Int.emod_add_emod, e2, Int.add_emod_self]

/-- C3: with `n >= 1` siblings (`n` a C++ int) and a starting index in
`[0, n-1]`, the `next` index step applied `n` times completes and returns the
starting index, and so does the `previous` index step applied `n` times. -/
theorem index_step_cycle (n i : Int) (hn : 1 ≤ n) (hmax : n ≤ INT_MAX)
    (h0 : 0 ≤ i) (hi : i < n) :
    iterateStep (nextRow n) n.toNat i = Except.ok i ∧
    Nat.iterate (previousRow n) n.toNat i = i := by
  have hcast : ((n.toNat : Nat) : Int) = n := Int.toNat_of_nonneg (by omega)
  constructor
  · rw [iterateStep_nextRow n hn hmax n.toNat i h0 hi, hcast, Int.add_emod_self,
      Int.emod_eq_of_lt h0 hi]
  · rw [iterate_previousRow n hn hmax n.toNat i h0 hi, hcast]
    have e : i - n = i + n * (-1) := by ring
    rw [e, Int.add_mul_emod_self_left, Int.emod_eq_of_lt h0 hi]

/-- C3 among five siblings, from index 3. -/
theorem index_step_cycle_witness :
    iterateStep (nextRow 5) 5 3 = Except.ok 3 ∧ Nat.iterate (previousRow 5) 5 3 = 3 :=
  index_step_cycle 5 3 (by decide) (by decide) (by decide) (by decide)

/-- C4: with `count >= 1` siblings (`count` a C++ int, `count = 1` included)
and a starting index in `[0, count-1]`, the `next` index step completes and the
`previous` index step applied to its result returns the starting index, and
the `next` index step applied to the result of the `previous` index step
completes with the starting index. The three levels share these two steps. -/
theorem index_step_round_trip (count i : Int) (hn : 1 ≤ count) (hmax : count ≤ INT_MAX)
    (h0 : 0 ≤ i) (hi : i < count) :
    (∃ j, nextRow count i = Except.ok j ∧ previousRow count j = i) ∧
    nextRow count (previousRow count i) = Except.ok i := by
  constructor
  · refine ⟨(i + 1) % count, nextRow_eq count i hn hmax h0 hi, ?_⟩
    have hr := emod_range count (i + 1) hn
    rw [previousRow_eq count _ hn hmax hr.1 hr.2]
    have e1 : (i + 1) % count - 1 + count = (i + 1) % count + (count - 1) := by ring
    have e2 : i + 1 + (count - 1) = i + count := by ring
    rw [e1, Int.emod_add_emod, e2, Int.add_emod_self, Int.emod_eq_of_lt h0 hi]
  · have hr := emod_range count (i - 1 + count) hn
    rw [previousRow_eq count i hn hmax h0 hi, nextRow_eq count _ hn hmax hr.1 hr.2,
      Int.emod_add_emod]
    have e : i - 1 + count + 1 = i + count := by ring
    rw [e, Int.add_emod_self, Int.emod_eq_of_lt h0 hi]

/-- C4 with a single sibling: both round trips stay at index 0. -/
theorem index_step_round_trip_witness :
    (∃ j, nextRow 1 0 = Except.ok j ∧ previousRow 1 j = 0) ∧
    nextRow 1 (previousRow 1 0) = Except.ok 0 :=
  index_step_round_trip 1 0 (by decide) (by decide) (by decide) (by decide)

/-! ## C5: a sibling count of zero -/

theorem previousRow_zero (id : Int) (h0 : 0 ≤ id) (hmax : id ≤ INT_MAX) :
    previousRow 0 id = id - 1 := by
  unfold INT_MAX at hmax
  have hw : toInt32 (id - 1) = id - 1 := toInt32_of_range _ (by omega) (by omega)
  unfold previousRow
  simp only [hw, add_zero, ite_self]

/-- C5, as stated, fails: in the concrete hierarchy whose series report zero
images, for the valid image index at row 0, `onNextImage` takes a remainder by
zero, and `onPreviousImage` does not fail but hands the index at row -1 to the
image preview and the thumbnails; likewise `onNextSeries` takes a remainder by
zero when the study reports zero series. -/
theorem zero_count_counterexample :
    exampleFirstImage.isValid = true ∧
    (exampleModelWith (1, 2, 3, 0)).rowCount
      (exampleFirstImage.parent (exampleModelWith (1, 2, 3, 0))) = 0 ∧
    onNextImage (exampleModelWith (1, 2, 3, 0)) exampleFirstImage {}
      = Except.error Fault.moduloByZero ∧
    (∃ d1, onPreviousImage (exampleModelWith (1, 2, 3, 0)) exampleFirstImage {}
        = Except.ok d1 ∧
      HandsOver {} d1 { r := -1, c := 0, p := 1000, m := ModelPtr.dicomModel }) ∧
    onNextSeries (exampleModelWith (1, 2, 0, 4)) exampleFirstImage {}
      = Except.error Fault.moduloByZero := by
  refine ⟨by decide, by decide, by decide, ⟨_, rfl, by decide⟩, by decide⟩

/-- C5, amended: the `previous` handlers never fault (they take no remainder
and do not divide), whatever the model reports; and when the model reports a
sibling count of 0 for the parent of the valid node at a level (row `index`, a
C++ int), the `previous` handler of that level completes and hands the sibling
at row `index - 1`, column 0 (row -1 for index 0), under the same parent to the
image preview and the thumbnails. -/
theorem previous_with_zero_count (M : ctkDICOMModel) (cur : QModelIndex)
    (d : ctkDICOMBrowserPrivate)
    (hv : cur.isValid = true) (hm : castToDICOMModel cur = true) :
    ((∃ d1, onPreviousImage M cur d = Except.ok d1) ∧
      (∃ d1, onPreviousSeries M cur d = Except.ok d1) ∧
      (∃ d1, onPreviousStudy M cur d = Except.ok d1)) ∧
    (M.rowCount (cur.parent M) = 0 → cur.row ≤ INT_MAX →
      ∃ d1, onPreviousImage M cur d = Except.ok d1 ∧
        HandsOver d d1 (siblingAt M cur (cur.row - 1))) ∧
    ((cur.parent M).isValid = true → M.rowCount ((cur.parent M).parent M) = 0 →
      (cur.parent M).row ≤ INT_MAX →
      ∃ d1, onPreviousSeries M cur d = Except.ok d1 ∧
        HandsOver d d1 (siblingAt M (cur.parent M) ((cur.parent M).row - 1))) ∧
    (((cur.parent M).parent M).isValid = true →
      M.rowCount (((cur.parent M).parent M).parent M) = 0 →
      ((cur.parent M).parent M).row ≤ INT_MAX →
      ∃ d1, onPreviousStudy M cur d = Except.ok d1 ∧
        HandsOver d d1 (siblingAt M ((cur.parent M).parent M)
          (((cur.parent M).parent M).row - 1))) := by
  obtain ⟨hr, _, hnull⟩ := (isValid_iff cur).1 hv
  refine ⟨⟨?_, ?_, ?_⟩, ?_, ?_, ?_⟩
  · unfold onPreviousImage
    simp only [hv, hm, if_true]
    exact ⟨_, rfl⟩
  · unfold onPreviousSeries
    simp only [hv, hm, if_true]
    exact ⟨_, rfl⟩
  · unfold onPreviousStudy
    simp only [hv, hm, if_true]
    exact ⟨_, rfl⟩
  · intro hc hmax
    refine ⟨selectIndex (updatePlaySlider d (cur.row - 1)) (siblingAt M cur (cur.row - 1)),
      ?_, handsOver_selectIndex_slider d _ _⟩
    unfold onPreviousImage
    simp only [hv, hm, if_true, hc, previousRow_zero cur.row hr hmax,
      sibling_eq_siblingAt M cur _ hnull]
  · intro hs hc hmax
    obtain ⟨hr1, _, hnull1⟩ := (isValid_iff _).1 hs
    refine ⟨selectIndex d (siblingAt M (cur.parent M) ((cur.parent M).row - 1)),
      ?_, handsOver_selectIndex d _⟩
    unfold onPreviousSeries
    simp only [hv, hm, if_true, hc, previousRow_zero (cur.parent M).row hr1 hmax,
      sibling_eq_siblingAt M _ _ hnull1]
  · intro hs hc hmax
    obtain ⟨hr1, _, hnull1⟩ := (isValid_iff _).1 hs
    refine ⟨selectIndex d (siblingAt M ((cur.parent M).parent M)
      (((cur.parent M).parent M).row - 1)), ?_, handsOver_selectIndex d _⟩
    unfold onPreviousStudy
    simp only [hv, hm, if_true, hc, previousRow_zero ((cur.parent M).parent M).row hr1 hmax,
      sibling_eq_siblingAt M _ _ hnull1]

/-- C5, amended, in the concrete hierarchy with zero images per series, zero
series per study and zero studies per patient, at the last image. -/
theorem previous_with_zero_count_witness :
    (∃ d1, onPreviousImage (exampleModelWith (1, 0, 0, 0)) exampleImage {} = Except.ok d1 ∧
      HandsOver {} d1 { r := 2, c := 0, p := 1012, m := ModelPtr.dicomModel }) ∧
    (∃ d1, onPreviousSeries (exampleModelWith (1, 0, 0, 0)) exampleImage {} = Except.ok d1 ∧
      HandsOver {} d1 { r := 1, c := 0, p := 101, m := ModelPtr.dicomModel }) ∧
    (∃ d1, onPreviousStudy (exampleModelWith (1, 0, 0, 0)) exampleImage {} = Except.ok d1 ∧
      HandsOver {} d1 { r := 0, c := 0, p := 10, m := ModelPtr.dicomModel }) :=
  have h := previous_with_zero_count (exampleModelWith (1, 0, 0, 0)) exampleImage {}
    (by decide) (by decide)
  ⟨h.2.1 (by decide) (by decide),
   h.2.2.1 (by decide) (by decide) (by decide),
   h.2.2.2 (by decide) (by decide) (by decide)⟩

/-! ## C6 and C7: what a selection shows and enables -/

theorem navigationShown_setNavigationButtons (d : ctkDICOMBrowserPrivate)
    (image series study : Bool) :
    navigationShown (setNavigationButtons d image series study)
      = ((image, image), (series, series), (study, study)) := rfl

theorem navigationShown_onModelSelected (M : ctkDICOMModel) (index : QModelIndex)
    (d : ctkDICOMBrowserPrivate) :
    navigationShown (onModelSelected M index d) =
      match selectedType M index with
      | some IndexType.PatientType => ((true, true), (true, true), (true, true))
      | some IndexType.StudyType => ((true, true), (true, true), (false, false))
      | some IndexType.SeriesType => ((true, true), (false, false), (false, false))
      | _ => ((false, false), (false, false), (false, false)) := by
  unfold onModelSelected selectedType
  by_cases hm : castToDICOMModel index = true
  · simp only [hm, if_true]
    rcases h : M.data_TypeRole (index.sibling M index.row 0) with _ | t
    · simp [navigationShown, setNavigationButtons]
    · cases t <;> simp [navigationShown, setNavigationButtons]
  · simp only [hm]
    rfl

/-- C6: the navigation buttons shown after `onModelSelected` are a function
of the type of the selected node alone (`selectedType`: the type of the
column-0 node of the selected row, or nothing when the index has no DICOM
model), not of the previous button state: two calls that select nodes of the
same type end with the same buttons shown, whatever the models, the indexes
and the states before. For a Patient node image, series and study navigation
are shown; for a Study node image and series navigation are shown and study
navigation is hidden; for a Series node only image navigation is shown; for an
Image node and for every index without the DICOM model (every invalid index
among them) all three are hidden. -/
theorem onModelSelected_navigation (M : ctkDICOMModel) (index : QModelIndex)
    (d : ctkDICOMBrowserPrivate) :
    (∀ (M2 : ctkDICOMModel) (index2 : QModelIndex) (d2 : ctkDICOMBrowserPrivate),
      selectedType M2 index2 = selectedType M index →
      navigationShown (onModelSelected M2 index2 d2)
        = navigationShown (onModelSelected M index d)) ∧
    (selectedType M index = some IndexType.PatientType →
      navigationShown (onModelSelected M index d)
        = ((true, true), (true, true), (true, true))) ∧
    (selectedType M index = some IndexType.StudyType →
      navigationShown (onModelSelected M index d)
        = ((true, true), (true, true), (false, false))) ∧
    (selectedType M index = some IndexType.SeriesType →
      navigationShown (onModelSelected M index d)
        = ((true, true), (false, false), (false, false))) ∧
    (selectedType M index = some IndexType.ImageType →
      navigationShown (onModelSelected M index d)
        = ((false, false), (false, false), (false, false))) ∧
    (castToDICOMModel index = false →
      navigationShown (onModelSelected M index d)
        = ((false, false), (false, false), (false, false))) ∧
    navigationShown (onModelSelected M QModelIndex.invalid d)
      = ((false, false), (false, false), (false, false)) := by
  have key := navigationShown_onModelSelected
  refine ⟨?_, ?_, ?_, ?_, ?_, ?_, ?_⟩
  · intro M2 index2 d2 h
    rw [key, key, h]
  · intro h
    rw [key, h]
  · intro h
    rw [key, h]
  · intro h
    rw [key, h]
  · intro h
    rw [key, h]
  · intro h
    rw [key]
    simp [selectedType, h]
  · rw [key]
    rfl

/-- C6 in the concrete hierarchy, from a state with every button shown: a
cell of a series row shows image navigation only, an image hides everything,
an index of another model hides everything, and selecting the same series
from two different button states ends with the same buttons. -/
theorem onModelSelected_navigation_witness :
    navigationShown (onModelSelected exampleModel exampleSeriesCell
        (setNavigationButtons {} true true true))
      = ((true, true), (false, false), (false, false)) ∧
    navigationShown (onModelSelected exampleModel exampleImage
        (setNavigationButtons {} true true true))
      = ((false, false), (false, false), (false, false)) ∧
    navigationShown (onModelSelected exampleModel
        { r := 0, c := 0, p := 1, m := ModelPtr.otherModel }
        (setNavigationButtons {} true true true))
      = ((false, false), (false, false), (false, false)) ∧
    navigationShown (onModelSelected exampleModel exampleSeriesCell {})
      = navigationShown (onModelSelected exampleModel exampleSeriesCell
          (setNavigationButtons {} true true true)) :=
  ⟨(onModelSelected_navigation exampleModel exampleSeriesCell
      (setNavigationButtons {} true true true)).2.2.2.1 (by decide),
   (onModelSelected_navigation exampleModel exampleImage
      (setNavigationButtons {} true true true)).2.2.2.2.1 (by decide),
   (onModelSelected_navigation exampleModel
      { r := 0, c := 0, p := 1, m := ModelPtr.otherModel }
      (setNavigationButtons {} true true true)).2.2.2.2.2.1 (by decide),
   (onModelSelected_navigation exampleModel exampleSeriesCell
      (setNavigationButtons {} true true true)).1 exampleModel exampleSeriesCell {} rfl⟩

theorem actionRemove_onModelSelected (M : ctkDICOMModel) (index : QModelIndex)
    (d : ctkDICOMBrowserPrivate) :
    (onModelSelected M index d).ActionRemove =
      (decide (selectedType M index = some IndexType.SeriesType) ||
       decide (selectedType M index = some IndexType.StudyType) ||
       decide (selectedType M index = some IndexType.PatientType)) := by
  unfold onModelSelected selectedType
  by_cases hm : castToDICOMModel index = true
  · simp only [hm, if_true]
  · simp [hm]

/-- C7: after `onModelSelected` the remove action is enabled if and only if
the selected node is of type Patient, Study or Series; it is disabled for
every Image node, for every index without the DICOM model and for the invalid
index (the empty selection). -/
theorem remove_enabled_iff (M : ctkDICOMModel) (index : QModelIndex)
    (d : ctkDICOMBrowserPrivate) :
    ((onModelSelected M index d).ActionRemove = true ↔
      (selectedType M index = some IndexType.PatientType ∨
       selectedType M index = some IndexType.StudyType ∨
       selectedType M index = some IndexType.SeriesType)) ∧
    (selectedType M index = some IndexType.ImageType →
      (onModelSelected M index d).ActionRemove = false) ∧
    (castToDICOMModel index = false →
      (onModelSelected M index d).ActionRemove = false) ∧
    (onModelSelected M QModelIndex.invalid d).ActionRemove = false := by
  refine ⟨?_, ?_, ?_, ?_⟩
  · rw [actionRemove_onModelSelected]
    simp only [Bool.or_eq_true, decide_eq_true_eq]
    tauto
  · intro h
    rw [actionRemove_onModelSelected, h]
    rfl
  · intro h
    rw [actionRemove_onModelSelected]
    simp [selectedType, h]
  · rw [actionRemove_onModelSelected]
    rfl

/-- C7 in the concrete hierarchy: from a state with the action enabled, an
image and an index of another model disable it; from the initial state a cell
of a series row enables it. -/
theorem remove_enabled_iff_witness :
    (onModelSelected exampleModel exampleImage { ActionRemove := true }).ActionRemove = false ∧
    (onModelSelected exampleModel { r := 0, c := 0, p := 1, m := ModelPtr.otherModel }
      { ActionRemove := true }).ActionRemove = false ∧
    (onModelSelected exampleModel exampleSeriesCell {}).ActionRemove = true :=
  ⟨(remove_enabled_iff exampleModel exampleImage { ActionRemove := true }).2.1 (by decide),
   (remove_enabled_iff exampleModel { r := 0, c := 0, p := 1, m := ModelPtr.otherModel }
      { ActionRemove := true }).2.2.1 (by decide),
   (remove_enabled_iff exampleModel exampleSeriesCell {}).1.2 (Or.inr (Or.inr (by decide)))⟩

/-! ## Import: what a run of signals does to the state -/

theorem toInt32_succ (a : Int) : toInt32 (toInt32 a + 1) = toInt32 (a + 1) := by
  unfold toInt32
  omega

theorem deliver_flag (d : ctkDICOMBrowserPrivate) (e : Signal) :
    (deliver d e).DisplayImportSummary = d.DisplayImportSummary := by
  cases e <;>
    simp only [deliver, onPatientAdded, onStudyAdded, onSeriesAdded, onInstanceAdded,
      onFileIndexed, ctkDICOMBrowserPrivate.call] <;>
    split_ifs <;> rfl

theorem deliver_dialog (d : ctkDICOMBrowserPrivate) (e : Signal) :
    (deliver d e).IndexerProgress = d.IndexerProgress := by
  cases e <;>
    simp only [deliver, onPatientAdded, onStudyAdded, onSeriesAdded, onInstanceAdded,
      onFileIndexed, ctkDICOMBrowserPrivate.call] <;>
    split_ifs <;> rfl

theorem deliver_summaries (d : ctkDICOMBrowserPrivate) (e : Signal) :
    importSummaries (deliver d e).calls = importSummaries d.calls := by
  cases e <;>
    simp only [deliver, onPatientAdded, onStudyAdded, onSeriesAdded, onInstanceAdded,
      onFileIndexed, ctkDICOMBrowserPrivate.call] <;>
    split_ifs <;> simp [importSummaries, List.filterMap_append]

theorem deliver_patients (d : ctkDICOMBrowserPrivate) (e : Signal) :
    (deliver d e).PatientsAddedDuringImport =
      if e.isPatientAdded then toInt32 (d.PatientsAddedDuringImport + 1)
      else d.PatientsAddedDuringImport := by
  cases e <;>
    simp only [deliver, onPatientAdded, onStudyAdded, onSeriesAdded, onInstanceAdded,
      onFileIndexed, ctkDICOMBrowserPrivate.call, Signal.isPatientAdded] <;>
    split_ifs <;> simp_all

theorem deliver_studies (d : ctkDICOMBrowserPrivate) (e : Signal) :
    (deliver d e).StudiesAddedDuringImport =
      if e.isStudyAdded then toInt32 (d.StudiesAddedDuringImport + 1)
      else d.StudiesAddedDuringImport := by
  cases e <;>
    simp only [deliver, onPatientAdded, onStudyAdded, onSeriesAdded, onInstanceAdded,
      onFileIndexed, ctkDICOMBrowserPrivate.call, Signal.isStudyAdded] <;>
    split_ifs <;> simp_all

theorem deliver_series (d : ctkDICOMBrowserPrivate) (e : Signal) :
    (deliver d e).SeriesAddedDuringImport =
      if e.isSeriesAdded then toInt32 (d.SeriesAddedDuringImport + 1)
      else d.SeriesAddedDuringImport := by
  cases e <;>
    simp only [deliver, onPatientAdded, onStudyAdded, onSeriesAdded, onInstanceAdded,
      onFileIndexed, ctkDICOMBrowserPrivate.call, Signal.isSeriesAdded] <;>
    split_ifs <;> simp_all

theorem deliver_instances (d : ctkDICOMBrowserPrivate) (e : Signal) :
    (deliver d e).InstancesAddedDuringImport =
      if e.isInstanceAdded then toInt32 (d.InstancesAddedDuringImport + 1)
      else d.InstancesAddedDuringImport := by
  cases e <;>
    simp only [deliver, onPatientAdded, onStudyAdded, onSeriesAdded, onInstanceAdded,
      onFileIndexed, ctkDICOMBrowserPrivate.call, Signal.isInstanceAdded] <;>
    split_ifs <;> simp_all

theorem deliverAll_cons (d : ctkDICOMBrowserPrivate) (e : Signal) (run : List Signal) :
    deliverAll d (e :: run) = deliverAll (deliver d e) run := rfl

theorem deliverAll_flag (run : List Signal) :
    ∀ d : ctkDICOMBrowserPrivate,
      (deliverAll d run).DisplayImportSummary = d.DisplayImportSummary := by
  induction run with
  | nil => intro d; rfl
  | cons e es ih => intro d; rw [deliverAll_cons, ih, deliver_flag]

theorem deliverAll_summaries (run : List Signal) :
    ∀ d : ctkDICOMBrowserPrivate,
      importSummaries (deliverAll d run).calls = importSummaries d.calls := by
  induction run with
  | nil => intro d; rfl
  | cons e es ih => intro d; rw [deliverAll_cons, ih, deliver_summaries]

/-- Counting with a step that adds one, modulo `2^32`, when `f e` holds. -/
theorem counter_fold (get : ctkDICOMBrowserPrivate → Int) (f : Signal → Bool)
    (hstep : ∀ d e, get (deliver d e) = if f e then toInt32 (get d + 1) else get d)
    (run : List Signal) :
    ∀ (d : ctkDICOMBrowserPrivate) (a : Int), get d = toInt32 a →
      get (deliverAll d run) = toInt32 (a + (run.countP f : Int)) := by
  induction run with
  | nil =>
    intro d a h
    simpa [deliverAll] using h
  | cons e es ih =>
    intro d a h
    rw [deliverAll_cons]
    by_cases hf : f e = true
    · have h1 : get (deliver d e) = toInt32 (a + 1) := by
        rw [hstep, if_pos hf, h, toInt32_succ]
      rw [ih _ _ h1, List.countP_cons_of_pos _ _ hf]
      congr 1
      push_cast
      ring
    · have h1 : get (deliver d e) = toInt32 a := by
        rw [hstep, if_neg hf, h]
      rw [ih _ _ h1, List.countP_cons_of_neg _ _ hf]

theorem deliverAll_counters (run : List Signal) (d : ctkDICOMBrowserPrivate)
    (hp : d.PatientsAddedDuringImport = 0) (hst : d.StudiesAddedDuringImport = 0)
    (hse : d.SeriesAddedDuringImport = 0) (hi : d.InstancesAddedDuringImport = 0) :
    (deliverAll d run).PatientsAddedDuringImport
        = toInt32 (run.countP Signal.isPatientAdded) ∧
    (deliverAll d run).StudiesAddedDuringImport
        = toInt32 (run.countP Signal.isStudyAdded) ∧
    (deliverAll d run).SeriesAddedDuringImport
        = toInt32 (run.countP Signal.isSeriesAdded) ∧
    (deliverAll d run).InstancesAddedDuringImport
        = toInt32 (run.countP Signal.isInstanceAdded) := by
  have z : (0 : Int) = toInt32 0 := by decide
  refine ⟨?_, ?_, ?_, ?_⟩
  · simpa using counter_fold (fun d => d.PatientsAddedDuringImport) _ deliver_patients
      run d 0 (hp.trans z)
  · simpa using counter_fold (fun d => d.StudiesAddedDuringImport) _ deliver_studies
      run d 0 (hst.trans z)
  · simpa using counter_fold (fun d => d.SeriesAddedDuringImport) _ deliver_series
      run d 0 (hse.trans z)
  · simpa using counter_fold (fun d => d.InstancesAddedDuringImport) _ deliver_instances
      run d 0 (hi.trans z)

/-- The state in which `addDirectory` is entered: counters reset, dialog
shown, the call logged. -/
theorem onImportDirectory_eq (copyOnImport : Bool) (databaseDirectory directory : String)
    (run : List Signal) (d : ctkDICOMBrowserPrivate) :
    ∃ d0 : ctkDICOMBrowserPrivate,
      d0.PatientsAddedDuringImport = 0 ∧ d0.StudiesAddedDuringImport = 0 ∧
      d0.SeriesAddedDuringImport = 0 ∧ d0.InstancesAddedDuringImport = 0 ∧
      d0.DisplayImportSummary = d.DisplayImportSummary ∧
      d0.IndexerProgress = true ∧
      importSummaries d0.calls = importSummaries d.calls ∧
      indexerCancels d0.calls = indexerCancels d.calls ∧
      onImportDirectory true copyOnImport databaseDirectory directory run d =
        if d.DisplayImportSummary then
          (deliverAll d0 run).call (Call.QMessageBox_information "Importar directorio DICOM"
            (importSummaryMessage (deliverAll d0 run).PatientsAddedDuringImport
              (deliverAll d0 run).StudiesAddedDuringImport
              (deliverAll d0 run).SeriesAddedDuringImport
              (deliverAll d0 run).InstancesAddedDuringImport))
        else deliverAll d0 run := by
  refine ⟨(showIndexerDialog { d with
      PatientsAddedDuringImport := 0
      StudiesAddedDuringImport := 0
      SeriesAddedDuringImport := 0
      InstancesAddedDuringImport := 0 }).call
    (Call.DICOMIndexer_addDirectory directory (if copyOnImport then databaseDirectory else "")),
    rfl, rfl, rfl, rfl, rfl, rfl, ?_, ?_, ?_⟩
  rotate_left 2
  · unfold onImportDirectory
    simp only [if_true, deliverAll_flag]
    rfl
  · simp [importSummaries, showIndexerDialog, ctkDICOMBrowserPrivate.call,
      List.filterMap_append]
  · simp [indexerCancels, showIndexerDialog, ctkDICOMBrowserPrivate.call]

/-- What `onImportDirectory` shows and counts for an existing directory. -/
theorem onImportDirectory_summary (copyOnImport : Bool)
    (databaseDirectory directory : String) (run : List Signal)
    (d : ctkDICOMBrowserPrivate) :
    importCounters (onImportDirectory true copyOnImport databaseDirectory directory run d)
      = (toInt32 (run.countP Signal.isPatientAdded), toInt32 (run.countP Signal.isStudyAdded),
         toInt32 (run.countP Signal.isSeriesAdded),
         toInt32 (run.countP Signal.isInstanceAdded)) ∧
    importSummaries
        (onImportDirectory true copyOnImport databaseDirectory directory run d).calls
      = if d.DisplayImportSummary then
          importSummaries d.calls ++
            [importSummaryMessage (toInt32 (run.countP Signal.isPatientAdded))
              (toInt32 (run.countP Signal.isStudyAdded))
              (toInt32 (run.countP Signal.isSeriesAdded))
              (toInt32 (run.countP Signal.isInstanceAdded))]
        else importSummaries d.calls := by
  obtain ⟨d0, hp, hst, hse, hi, _, _, hsum, _, heq⟩ :=
    onImportDirectory_eq copyOnImport databaseDirectory directory run d
  obtain ⟨cp, cst, cse, ci⟩ := deliverAll_counters run d0 hp hst hse hi
  rw [heq]
  cases hflag : d.DisplayImportSummary
  · simp only [Bool.false_eq_true, if_false]
    refine ⟨?_, ?_⟩
    · simp only [importCounters, patientsAddedDuringImport, studiesAddedDuringImport,
        seriesAddedDuringImport, instancesAddedDuringImport, cp, cst, cse, ci]
    · rw [deliverAll_summaries, hsum]
  · simp only [if_true]
    refine ⟨?_, ?_⟩
    · simp only [importCounters, patientsAddedDuringImport, studiesAddedDuringImport,
        seriesAddedDuringImport, instancesAddedDuringImport, ctkDICOMBrowserPrivate.call,
        cp, cst, cse, ci]
    · have h1 := deliverAll_summaries run d0
      simp only [importSummaries] at h1 hsum
      simp only [ctkDICOMBrowserPrivate.call, importSummaries, List.filterMap_append,
        cp, cst, cse, ci, h1, hsum]
      rfl

/-! ## C8: the summary reports the notifications of the run -/

/-- C8: for an existing directory and the display flag set, whatever the four
counters held before, the summary shown at the end of `onImportDirectory`
lists exactly the numbers of `patientAdded`, `studyAdded`, `seriesAdded` and
`instanceAdded` signals delivered during the run, and the four getters return
them (each number within the range of the C++ int counters); any permutation
of the run gives the same summary and the same counters; the empty run gives
`0 New Patients`, `0 New Studies`, `0 New Series`, `0 New Instances`. -/
theorem import_summary_reports_counts (copyOnImport : Bool)
    (databaseDirectory directory : String) (run : List Signal)
    (d : ctkDICOMBrowserPrivate) (hflag : d.DisplayImportSummary = true) :
    ((run.countP Signal.isPatientAdded : Int) ≤ INT_MAX →
      (run.countP Signal.isStudyAdded : Int) ≤ INT_MAX →
      (run.countP Signal.isSeriesAdded : Int) ≤ INT_MAX →
      (run.countP Signal.isInstanceAdded : Int) ≤ INT_MAX →
      importSummaries
          (onImportDirectory true copyOnImport databaseDirectory directory run d).calls
        = importSummaries d.calls ++
          [importSummaryMessage (run.countP Signal.isPatientAdded)
            (run.countP Signal.isStudyAdded) (run.countP Signal.isSeriesAdded)
            (run.countP Signal.isInstanceAdded)] ∧
      importCounters (onImportDirectory true copyOnImport databaseDirectory directory run d)
        = ((run.countP Signal.isPatientAdded : Int), (run.countP Signal.isStudyAdded : Int),
           (run.countP Signal.isSeriesAdded : Int), (run.countP Signal.isInstanceAdded : Int))) ∧
    (∀ run2 : List Signal, run2.Perm run →
      importSummaries
          (onImportDirectory true copyOnImport databaseDirectory directory run2 d).calls
        = importSummaries
          (onImportDirectory true copyOnImport databaseDirectory directory run d).calls ∧
      importCounters (onImportDirectory true copyOnImport databaseDirectory directory run2 d)
        = importCounters
          (onImportDirectory true copyOnImport databaseDirectory directory run d)) ∧
    importSummaries
        (onImportDirectory true copyOnImport databaseDirectory directory [] d).calls
      = importSummaries d.calls ++
        ["Directory import completed.\n\n0 New Patients\n0 New Studies\n0 New Series\n0 New Instances\n"] := by
  have key := onImportDirectory_summary copyOnImport databaseDirectory directory
  refine ⟨?_, ?_, ?_⟩
  · intro hp hst hse hi
    unfold INT_MAX at hp hst hse hi
    obtain ⟨hc, hs⟩ := key run d
    rw [hc, hs, hflag, if_pos rfl,
      toInt32_of_range _ (by omega) hp, toInt32_of_range _ (by omega) hst,
      toInt32_of_range _ (by omega) hse, toInt32_of_range _ (by omega) hi]
    exact ⟨rfl, rfl⟩
  · intro run2 hperm
    obtain ⟨hc, hs⟩ := key run d
    obtain ⟨hc2, hs2⟩ := key run2 d
    rw [hc, hs, hc2, hs2, hperm.countP_eq, hperm.countP_eq, hperm.countP_eq, hperm.countP_eq]
    exact ⟨rfl, rfl⟩
  · rw [(key [] d).2, hflag, if_pos rfl]
    rfl

/-- C8 for a completed run with one patient, one study, two series and three
instances, started from a state whose counters hold 7, 8, 9 and 10: the
summary lists 1, 1, 2, 3, also when the run is delivered in reverse order. -/
theorem import_summary_reports_counts_witness :
    importSummaries (onImportDirectory true false "/db" "/data" exampleCompletedRun
        { PatientsAddedDuringImport := 7, StudiesAddedDuringImport := 8,
          SeriesAddedDuringImport := 9, InstancesAddedDuringImport := 10 }).calls
      = ["Directory import completed.\n\n1 New Patients\n1 New Studies\n2 New Series\n3 New Instances\n"] ∧
    importSummaries (onImportDirectory true false "/db" "/data" exampleCompletedRun.reverse
        { PatientsAddedDuringImport := 7, StudiesAddedDuringImport := 8,
          SeriesAddedDuringImport := 9, InstancesAddedDuringImport := 10 }).calls
      = importSummaries (onImportDirectory true false "/db" "/data" exampleCompletedRun
        { PatientsAddedDuringImport := 7, StudiesAddedDuringImport := 8,
          SeriesAddedDuringImport := 9, InstancesAddedDuringImport := 10 }).calls :=
  have h := import_summary_reports_counts false "/db" "/data" exampleCompletedRun
    { PatientsAddedDuringImport := 7, StudiesAddedDuringImport := 8,
      SeriesAddedDuringImport := 9, InstancesAddedDuringImport := 10 } rfl
  ⟨(h.1 (by decide) (by decide) (by decide) (by decide)).1,
   (h.2.1 exampleCompletedRun.reverse (List.reverse_perm _)).1⟩

/-! ## C9: the display flag gates the summary only -/

theorem append_singleton_ne_self {α : Type} (xs : List α) (x : α) : xs ++ [x] ≠ xs := by
  intro h
  have hl := congrArg List.length h
  simp at hl

theorem onImportDirectory_absent (copyOnImport : Bool) (databaseDirectory directory : String)
    (run : List Signal) (d : ctkDICOMBrowserPrivate) :
    onImportDirectory false copyOnImport databaseDirectory directory run d = d := rfl

/-- C9: an import of an existing directory presents a summary if and only if
the display flag is set, and then exactly one, built from the counters at
the end of the run; after `setDisplayImportSummary(false)` no summary is produced,
for any directory (existing or not), any run and any counters, while the four
counters end with the same values as in the same import after
`setDisplayImportSummary(true)`. -/
theorem summary_iff_display_flag (directoryExists copyOnImport : Bool)
    (databaseDirectory directory : String) (run : List Signal)
    (d : ctkDICOMBrowserPrivate) :
    (importSummaries
          (onImportDirectory true copyOnImport databaseDirectory directory run d).calls
        ≠ importSummaries d.calls ↔ displayImportSummary d = true) ∧
    importSummaries
        (onImportDirectory true copyOnImport databaseDirectory directory run d).calls
      = (if displayImportSummary d then
          importSummaries d.calls ++
            [importSummaryMessage
              (patientsAddedDuringImport
                (onImportDirectory true copyOnImport databaseDirectory directory run d))
              (studiesAddedDuringImport
                (onImportDirectory true copyOnImport databaseDirectory directory run d))
              (seriesAddedDuringImport
                (onImportDirectory true copyOnImport databaseDirectory directory run d))
              (instancesAddedDuringImport
                (onImportDirectory true copyOnImport databaseDirectory directory run d))]
        else importSummaries d.calls) ∧
    importSummaries
        (onImportDirectory directoryExists copyOnImport databaseDirectory directory run
          (setDisplayImportSummary false d)).calls
      = importSummaries d.calls ∧
    importCounters
        (onImportDirectory directoryExists copyOnImport databaseDirectory directory run
          (setDisplayImportSummary false d))
      = importCounters
        (onImportDirectory directoryExists copyOnImport databaseDirectory directory run
          (setDisplayImportSummary true d)) := by
  obtain ⟨hc, hs⟩ := onImportDirectory_summary copyOnImport databaseDirectory directory run d
  have hc4 := hc
  simp only [importCounters, Prod.mk.injEq] at hc4
  obtain ⟨h1, h2, h3, h4⟩ := hc4
  refine ⟨?_, ?_, ?_, ?_⟩
  · rw [hs, displayImportSummary]
    cases d.DisplayImportSummary
    · simp
    · simp
  · rw [hs, h1, h2, h3, h4]
    rfl
  · cases directoryExists
    · rfl
    · rw [(onImportDirectory_summary copyOnImport databaseDirectory directory run
        (setDisplayImportSummary false d)).2]
      rfl
  · cases directoryExists
    · rfl
    · rw [(onImportDirectory_summary copyOnImport databaseDirectory directory run
          (setDisplayImportSummary false d)).1,
        (onImportDirectory_summary copyOnImport databaseDirectory directory run
          (setDisplayImportSummary true d)).1]

/-- C9 on the completed run: with the flag cleared nothing is shown and the
getters return 1, 1, 2 and 3; with the flag set one summary is shown. -/
theorem summary_iff_display_flag_witness :
    importSummaries (onImportDirectory true false "/db" "/data" exampleCompletedRun
        (setDisplayImportSummary false {})).calls = [] ∧
    importCounters (onImportDirectory true false "/db" "/data" exampleCompletedRun
        (setDisplayImportSummary false {})) = (1, 1, 2, 3) ∧
    importSummaries (onImportDirectory true false "/db" "/data" exampleCompletedRun {}).calls
      ≠ [] :=
  have h := summary_iff_display_flag true false "/db" "/data" exampleCompletedRun {}
  ⟨h.2.2.1, h.2.2.2.trans (by decide), h.1.2 rfl⟩

/-! ## C10: a cancelled run -/

theorem deliver_cancels (d : ctkDICOMBrowserPrivate) (e : Signal)
    (hd : d.IndexerProgress = true) :
    indexerCancels (deliver d e).calls
      = indexerCancels d.calls + 2 * [e].count Signal.canceled := by
  cases e <;>
    simp [deliver, onPatientAdded, onStudyAdded, onSeriesAdded, onInstanceAdded,
      onFileIndexed, ctkDICOMBrowserPrivate.call, indexerCancels, hd, List.count_cons]

theorem deliverAll_dialog (run : List Signal) :
    ∀ d : ctkDICOMBrowserPrivate, (deliverAll d run).IndexerProgress = d.IndexerProgress := by
  induction run with
  | nil => intro d; rfl
  | cons e es ih => intro d; rw [deliverAll_cons, ih, deliver_dialog]

theorem deliverAll_cancels (run : List Signal) :
    ∀ d : ctkDICOMBrowserPrivate, d.IndexerProgress = true →
      indexerCancels (deliverAll d run).calls
        = indexerCancels d.calls + 2 * run.count Signal.canceled := by
  induction run with
  | nil => intro d _; rfl
  | cons e es ih =>
    intro d hd
    rw [deliverAll_cons, ih _ ((deliver_dialog d e).trans hd), deliver_cancels d e hd]
    simp only [List.count_cons, List.count_nil]
    omega

theorem onImportDirectory_cancels (copyOnImport : Bool)
    (databaseDirectory directory : String) (run : List Signal)
    (d : ctkDICOMBrowserPrivate) :
    indexerCancels
        (onImportDirectory true copyOnImport databaseDirectory directory run d).calls
      = indexerCancels d.calls + 2 * run.count Signal.canceled := by
  obtain ⟨d0, _, _, _, _, _, hdlg, _, hcan, heq⟩ :=
    onImportDirectory_eq copyOnImport databaseDirectory directory run d
  have h := deliverAll_cancels run d0 hdlg
  rw [heq]
  cases d.DisplayImportSummary
  · simpa [hcan] using h
  · simp only [if_true, ctkDICOMBrowserPrivate.call, indexerCancels, List.count_append] at h ⊢
    simp only [indexerCancels] at hcan
    rw [h, hcan]
    simp [List.count_cons]

/-- C10, as stated, fails: the run is cancelled after the first file and the
indexer never signals completion, the display flag is set (its initial
value), and `onImportDirectory` still shows a summary, with the counters
accumulated before the cancel. -/
theorem cancelled_import_counterexample :
    Signal.canceled ∈ exampleCancelledRun ∧
    Signal.indexingComplete ∉ exampleCancelledRun ∧
    importSummaries
        (onImportDirectory true false "/db" "/data" exampleCancelledRun {}).calls
      = ["Directory import completed.\n\n1 New Patients\n1 New Studies\n1 New Series\n1 New Instances\n"] := by
  decide

/-- C10, amended: when the run of an import of an existing directory is
cancelled, every cancel is forwarded to the indexer (`DICOMIndexer::cancel`
is called, twice per cancel, as `canceled()` is connected to it twice), and
once `addDirectory` has returned the summary of the counters accumulated so
far is produced if and only if the display flag is set. -/
theorem cancelled_import_forwards_and_summarises (copyOnImport : Bool)
    (databaseDirectory directory : String) (run : List Signal)
    (d : ctkDICOMBrowserPrivate) (hc : Signal.canceled ∈ run) :
    indexerCancels d.calls
      < indexerCancels
        (onImportDirectory true copyOnImport databaseDirectory directory run d).calls ∧
    indexerCancels
        (onImportDirectory true copyOnImport databaseDirectory directory run d).calls
      = indexerCancels d.calls + 2 * run.count Signal.canceled ∧
    (importSummaries
          (onImportDirectory true copyOnImport databaseDirectory directory run d).calls
        ≠ importSummaries d.calls ↔ displayImportSummary d = true) ∧
    (displayImportSummary d = true →
      importSummaries
          (onImportDirectory true copyOnImport databaseDirectory directory run d).calls
        = importSummaries d.calls ++
          [importSummaryMessage
            (patientsAddedDuringImport
              (onImportDirectory true copyOnImport databaseDirectory directory run d))
            (studiesAddedDuringImport
              (onImportDirectory true copyOnImport databaseDirectory directory run d))
            (seriesAddedDuringImport
              (onImportDirectory true copyOnImport databaseDirectory directory run d))
            (instancesAddedDuringImport
              (onImportDirectory true copyOnImport databaseDirectory directory run d))]) := by
  have hcan := onImportDirectory_cancels copyOnImport databaseDirectory directory run d
  have hpos : 0 < run.count Signal.canceled := List.count_pos_iff.2 hc
  obtain ⟨hc, hs⟩ := onImportDirectory_summary copyOnImport databaseDirectory directory run d
  have hc4 := hc
  simp only [importCounters, Prod.mk.injEq] at hc4
  obtain ⟨h1, h2, h3, h4⟩ := hc4
  refine ⟨by omega, hcan, ?_, ?_⟩
  · rw [hs, displayImportSummary]
    cases d.DisplayImportSummary
    · simp
    · simp
  · intro hflag
    rw [displayImportSummary] at hflag
    rw [hs, hflag, if_pos rfl, h1, h2, h3, h4]

/-- C10, amended, on the cancelled run: two calls of `DICOMIndexer::cancel`
for the one cancel, and the summary of the partial counters with the flag
set. -/
theorem cancelled_import_forwards_and_summarises_witness :
    indexerCancels (onImportDirectory true true "/db" "/data" exampleCancelledRun {}).calls = 2 ∧
    importSummaries (onImportDirectory true true "/db" "/data" exampleCancelledRun {}).calls
      = ["Directory import completed.\n\n1 New Patients\n1 New Studies\n1 New Series\n1 New Instances\n"] :=
  have h := cancelled_import_forwards_and_summarises true "/db" "/data" exampleCancelledRun {}
    (by decide)
  ⟨h.2.1, h.2.2.2 rfl⟩

/-! ## C11: the counters inside the window of a run -/

theorem onImportDirectory_window (copyOnImport : Bool) (databaseDirectory directory : String)
    (run : List Signal) (d : ctkDICOMBrowserPrivate) :
    onImportDirectory true copyOnImport databaseDirectory directory run d
      = importFinish (deliverAll (importStart copyOnImport databaseDirectory directory d) run) :=
  rfl

theorem importCounters_importFinish (d : ctkDICOMBrowserPrivate) :
    importCounters (importFinish d) = importCounters d := by
  unfold importFinish
  split_ifs <;> rfl

/-- One more signal does not lower a counter that started at zero, as long as
the count stays within the range of a C++ int. -/
theorem counter_step_le (get : ctkDICOMBrowserPrivate → Int) (f : Signal → Bool)
    (hstep : ∀ d e, get (deliver d e) = if f e then toInt32 (get d + 1) else get d)
    (pre : List Signal) (e : Signal) (d : ctkDICOMBrowserPrivate) (h0 : get d = 0)
    (hb : ((pre ++ [e]).countP f : Int) ≤ INT_MAX) :
    get (deliverAll d pre) ≤ get (deliver (deliverAll d pre) e) := by
  have z : (0 : Int) = toInt32 0 := by decide
  have hpre := counter_fold get f hstep pre d 0 (h0.trans z)
  rw [hstep, hpre]
  unfold INT_MAX at hb
  rw [List.countP_append] at hb
  push_cast at hb
  by_cases hf : f e = true
  · have h1 : List.countP f [e] = 1 := by simp [List.countP_cons, hf]
    rw [h1] at hb
    rw [if_pos hf]
    unfold toInt32
    omega
  · rw [if_neg hf]

theorem importCounters_deliver_other (d : ctkDICOMBrowserPrivate) (e : Signal)
    (hp : e.isPatientAdded = false) (hst : e.isStudyAdded = false)
    (hse : e.isSeriesAdded = false) (hi : e.isInstanceAdded = false) :
    importCounters (deliver d e) = importCounters d := by
  simp only [importCounters, patientsAddedDuringImport, studiesAddedDuringImport,
    seriesAddedDuringImport, instancesAddedDuringImport, deliver_patients, deliver_studies,
    deliver_series, deliver_instances, hp, hst, hse, hi, Bool.false_eq_true, if_false]

/-- C11: inside the window of an import run, which starts with the four
counters reset to zero (`importStart`) and ends with the counters the getters
then return, every signal handled leaves each counter greater than or equal to
its previous value, while the number of notifications of each kind stays
within the range of the C++ int counters; a cancel, a progress signal, a file
path signal and the completion signal leave all four counters exactly
unchanged, in any state. -/
theorem counters_monotone_in_run (copyOnImport : Bool)
    (databaseDirectory directory : String) (pre : List Signal) (e : Signal)
    (d : ctkDICOMBrowserPrivate) :
    importCounters (importStart copyOnImport databaseDirectory directory d) = (0, 0, 0, 0) ∧
    (∀ run : List Signal,
      importCounters (onImportDirectory true copyOnImport databaseDirectory directory run d)
        = importCounters
          (deliverAll (importStart copyOnImport databaseDirectory directory d) run)) ∧
    (((pre ++ [e]).countP Signal.isPatientAdded : Int) ≤ INT_MAX →
      ((pre ++ [e]).countP Signal.isStudyAdded : Int) ≤ INT_MAX →
      ((pre ++ [e]).countP Signal.isSeriesAdded : Int) ≤ INT_MAX →
      ((pre ++ [e]).countP Signal.isInstanceAdded : Int) ≤ INT_MAX →
      patientsAddedDuringImport
          (deliverAll (importStart copyOnImport databaseDirectory directory d) pre)
        ≤ patientsAddedDuringImport (deliver
          (deliverAll (importStart copyOnImport databaseDirectory directory d) pre) e) ∧
      studiesAddedDuringImport
          (deliverAll (importStart copyOnImport databaseDirectory directory d) pre)
        ≤ studiesAddedDuringImport (deliver
          (deliverAll (importStart copyOnImport databaseDirectory directory d) pre) e) ∧
      seriesAddedDuringImport
          (deliverAll (importStart copyOnImport databaseDirectory directory d) pre)
        ≤ seriesAddedDuringImport (deliver
          (deliverAll (importStart copyOnImport databaseDirectory directory d) pre) e) ∧
      instancesAddedDuringImport
          (deliverAll (importStart copyOnImport databaseDirectory directory d) pre)
        ≤ instancesAddedDuringImport (deliver
          (deliverAll (importStart copyOnImport databaseDirectory directory d) pre) e)) ∧
    (∀ (d1 : ctkDICOMBrowserPrivate) (percent : Int) (filePath : String),
      importCounters (deliver d1 Signal.canceled) = importCounters d1 ∧
      importCounters (deliver d1 (Signal.progress percent)) = importCounters d1 ∧
      importCounters (deliver d1 (Signal.indexingFilePath filePath)) = importCounters d1 ∧
      importCounters (deliver d1 Signal.indexingComplete) = importCounters d1) := by
  refine ⟨rfl, ?_, ?_, ?_⟩
  · intro run
    rw [onImportDirectory_window, importCounters_importFinish]
  · intro hp hst hse hi
    exact ⟨counter_step_le (fun d => d.PatientsAddedDuringImport) _ deliver_patients
        pre e _ rfl hp,
      counter_step_le (fun d => d.StudiesAddedDuringImport) _ deliver_studies pre e _ rfl hst,
      counter_step_le (fun d => d.SeriesAddedDuringImport) _ deliver_series pre e _ rfl hse,
      counter_step_le (fun d => d.InstancesAddedDuringImport) _ deliver_instances
        pre e _ rfl hi⟩
  · intro d1 percent filePath
    exact ⟨importCounters_deliver_other d1 _ rfl rfl rfl rfl,
      importCounters_deliver_other d1 _ rfl rfl rfl rfl,
      importCounters_deliver_other d1 _ rfl rfl rfl rfl,
      importCounters_deliver_other d1 _ rfl rfl rfl rfl⟩

/-- C11 on the cancelled run, started from counters 7, 8, 9 and 10: the
notification of an instance raises the instance counter from 0 to 1 and
lowers no counter. -/
theorem counters_monotone_in_run_witness :
    patientsAddedDuringImport (deliverAll (importStart false "/db" "/data"
        { PatientsAddedDuringImport := 7, StudiesAddedDuringImport := 8,
          SeriesAddedDuringImport := 9, InstancesAddedDuringImport := 10 })
        (exampleCancelledRun.take 4))
      ≤ patientsAddedDuringImport (deliver (deliverAll (importStart false "/db" "/data"
        { PatientsAddedDuringImport := 7, StudiesAddedDuringImport := 8,
          SeriesAddedDuringImport := 9, InstancesAddedDuringImport := 10 })
        (exampleCancelledRun.take 4)) (Signal.instanceAdded "1.2.3.4")) ∧
    instancesAddedDuringImport (deliverAll (importStart false "/db" "/data"
        { PatientsAddedDuringImport := 7, StudiesAddedDuringImport := 8,
          SeriesAddedDuringImport := 9, InstancesAddedDuringImport := 10 })
        (exampleCancelledRun.take 4)) = 0 ∧
    instancesAddedDuringImport (deliver (deliverAll (importStart false "/db" "/data"
        { PatientsAddedDuringImport := 7, StudiesAddedDuringImport := 8,
          SeriesAddedDuringImport := 9, InstancesAddedDuringImport := 10 })
        (exampleCancelledRun.take 4)) (Signal.instanceAdded "1.2.3.4")) = 1 :=
  have h := (counters_monotone_in_run false "/db" "/data" (exampleCancelledRun.take 4)
    (Signal.instanceAdded "1.2.3.4")
    { PatientsAddedDuringImport := 7, StudiesAddedDuringImport := 8,
      SeriesAddedDuringImport := 9, InstancesAddedDuringImport := 10 }).2.2.1
    (by decide) (by decide) (by decide) (by decide)
  ⟨h.1, by decide, by decide⟩

/-! ## C12: entity-added notifications outside a run -/

/-- C12, as stated, fails: after the completed run, whose totals are 1, 1, 2
and 3, a `patientAdded` signal delivered outside any import (as a retrieve
into the same database emits it) makes `patientsAddedDuringImport` return 2. -/
theorem notification_outside_run_counterexample :
    Signal.indexingComplete ∈ exampleCompletedRun ∧
    importCounters (onImportDirectory true false "/db" "/data" exampleCompletedRun {})
      = (1, 1, 2, 3) ∧
    importCounters
        (deliver (onImportDirectory true false "/db" "/data" exampleCompletedRun {})
          (Signal.patientAdded 2 "P2" "Roe^Jane" "19800101"))
      = (2, 1, 2, 3) := by
  decide

/-- C12, amended: the browser is never unsubscribed from the entity-added
signals (they are delivered to their slots in every state). After an import
the four getters return the totals of that run; every entity-added signal
delivered afterwards adds one (as a C++ int) to its own counter and leaves the
other three unchanged, and a signal of any other kind changes none of the
four. -/
theorem counters_outside_run (d : ctkDICOMBrowserPrivate) (e : Signal) :
    (∀ (copyOnImport : Bool) (databaseDirectory directory : String) (run : List Signal),
      importCounters (onImportDirectory true copyOnImport databaseDirectory directory run d)
        = (toInt32 (run.countP Signal.isPatientAdded), toInt32 (run.countP Signal.isStudyAdded),
           toInt32 (run.countP Signal.isSeriesAdded),
           toInt32 (run.countP Signal.isInstanceAdded))) ∧
    (e.isPatientAdded = true →
      importCounters (deliver d e)
        = (toInt32 (patientsAddedDuringImport d + 1), studiesAddedDuringImport d,
           seriesAddedDuringImport d, instancesAddedDuringImport d)) ∧
    (e.isStudyAdded = true →
      importCounters (deliver d e)
        = (patientsAddedDuringImport d, toInt32 (studiesAddedDuringImport d + 1),
           seriesAddedDuringImport d, instancesAddedDuringImport d)) ∧
    (e.isSeriesAdded = true →
      importCounters (deliver d e)
        = (patientsAddedDuringImport d, studiesAddedDuringImport d,
           toInt32 (seriesAddedDuringImport d + 1), instancesAddedDuringImport d)) ∧
    (e.isInstanceAdded = true →
      importCounters (deliver d e)
        = (patientsAddedDuringImport d, studiesAddedDuringImport d,
           seriesAddedDuringImport d, toInt32 (instancesAddedDuringImport d + 1))) ∧
    (e.isPatientAdded = false → e.isStudyAdded = false → e.isSeriesAdded = false →
      e.isInstanceAdded = false → importCounters (deliver d e) = importCounters d) := by
  refine ⟨?_, ?_, ?_, ?_, ?_, importCounters_deliver_other d e⟩
  · intro copyOnImport databaseDirectory directory run
    exact (onImportDirectory_summary copyOnImport databaseDirectory directory run d).1
  all_goals
    intro h
    cases e <;> first
      | rfl
      | simp [Signal.isPatientAdded, Signal.isStudyAdded, Signal.isSeriesAdded,
          Signal.isInstanceAdded] at h

/-- C12, amended, after the completed run: a `studyAdded` signal raises the
study getter from 1 to 2, and a late `progress` signal changes nothing. -/
theorem counters_outside_run_witness :
    importCounters
        (deliver (onImportDirectory true false "/db" "/data" exampleCompletedRun {})
          (Signal.studyAdded "7.7"))
      = (1, 2, 2, 3) ∧
    importCounters
        (deliver (onImportDirectory true false "/db" "/data" exampleCompletedRun {})
          (Signal.progress 100))
      = importCounters (onImportDirectory true false "/db" "/data" exampleCompletedRun {}) :=
  ⟨((counters_outside_run
      (onImportDirectory true false "/db" "/data" exampleCompletedRun {})
      (Signal.studyAdded "7.7")).2.2.1 rfl).trans (by decide),
   (counters_outside_run
      (onImportDirectory true false "/db" "/data" exampleCompletedRun {})
      (Signal.progress 100)).2.2.2.2.2 rfl rfl rfl rfl⟩

/-! ## C19: a directory that does not exist -/

/-- C19: `onImportDirectory` with a directory that does not exist returns the
state it was given, whatever the display flag, the check box and the signals
that could have been delivered: the four counters keep their values (they are
not reset), the indexer is not called, the progress dialog is neither created
nor shown, and no summary and no other call is made. -/
theorem absent_directory_is_noop (copyOnImport : Bool)
    (databaseDirectory directory : String) (run : List Signal)
    (d : ctkDICOMBrowserPrivate) :
    onImportDirectory false copyOnImport databaseDirectory directory run d = d ∧
    importCounters (onImportDirectory false copyOnImport databaseDirectory directory run d)
      = importCounters d ∧
    (onImportDirectory false copyOnImport databaseDirectory directory run d).calls = d.calls ∧
    indexingRuns (onImportDirectory false copyOnImport databaseDirectory directory run d).calls
      = indexingRuns d.calls ∧
    (onImportDirectory false copyOnImport databaseDirectory directory run d).IndexerProgress
      = d.IndexerProgress ∧
    importSummaries
        (onImportDirectory false copyOnImport databaseDirectory directory run d).calls
      = importSummaries d.calls :=
  ⟨rfl, rfl, rfl, rfl, rfl, rfl⟩

/-! ## C13: a second import inside a running one -/

theorem foldl_deliverEvent_signals (run : List Signal) :
    ∀ d : ctkDICOMBrowserPrivate,
      (run.map RunEvent.signal).foldl deliverEvent d = deliverAll d run := by
  induction run with
  | nil => intro d; rfl
  | cons e es ih => intro d; exact ih (deliver d e)

theorem onImportDirectoryReentrant_signals (directoryExists copyOnImport : Bool)
    (databaseDirectory directory : String) (run : List Signal)
    (d : ctkDICOMBrowserPrivate) :
    onImportDirectoryReentrant directoryExists copyOnImport databaseDirectory directory
        (run.map RunEvent.signal) d
      = onImportDirectory directoryExists copyOnImport databaseDirectory directory run d := by
  cases directoryExists
  · rfl
  · unfold onImportDirectoryReentrant
    rw [foldl_deliverEvent_signals]
    rfl

theorem indexingRuns_append (xs ys : List Call) :
    indexingRuns (xs ++ ys) = indexingRuns xs + indexingRuns ys := by
  simp [indexingRuns, List.countP_append]

theorem deliver_indexingRuns (d : ctkDICOMBrowserPrivate) (e : Signal) :
    indexingRuns (deliver d e).calls = indexingRuns d.calls := by
  cases e <;>
    simp only [deliver, onPatientAdded, onStudyAdded, onSeriesAdded, onInstanceAdded,
      onFileIndexed, ctkDICOMBrowserPrivate.call] <;>
    split_ifs <;> simp [indexingRuns, List.countP_append]

theorem deliverAll_indexingRuns (run : List Signal) :
    ∀ d : ctkDICOMBrowserPrivate,
      indexingRuns (deliverAll d run).calls = indexingRuns d.calls := by
  induction run with
  | nil => intro d; rfl
  | cons e es ih => intro d; rw [deliverAll_cons, ih, deliver_indexingRuns]

theorem indexingRuns_onImportDirectory (copyOnImport : Bool)
    (databaseDirectory directory : String) (run : List Signal)
    (d : ctkDICOMBrowserPrivate) :
    indexingRuns (onImportDirectory true copyOnImport databaseDirectory directory run d).calls
      = indexingRuns d.calls + 1 := by
  rw [onImportDirectory_window]
  have h : indexingRuns (deliverAll (importStart copyOnImport databaseDirectory directory d)
      run).calls = indexingRuns d.calls + 1 := by
    rw [deliverAll_indexingRuns]
    simp [importStart, showIndexerDialog, ctkDICOMBrowserPrivate.call, indexingRuns,
      List.countP_append]
  unfold importFinish
  split_ifs
  · simp only [ctkDICOMBrowserPrivate.call, indexingRuns_append, h]
    rfl
  · exact h

/-- C13, as stated, fails: in the run of the import of `/data` one patient,
study, series and instance have been counted when `/other` is chosen in
the import dialog during `onFileIndexed`; the second import is not rejected: it
calls `addDirectory` (two indexing runs in all) and shows its own summary, and
the summary of the first import reports 0 patients, studies and series and 2
instances, the counts before the second start being lost. -/
theorem second_import_counterexample :
    indexingRuns
        (onImportDirectoryReentrant true false "/db" "/data" exampleReentrantRun {}).calls = 2 ∧
    importCounters (onImportDirectoryReentrant true false "/db" "/data" exampleReentrantRun {})
      = (0, 0, 0, 2) ∧
    importSummaries
        (onImportDirectoryReentrant true false "/db" "/data" exampleReentrantRun {}).calls
      = ["Directory import completed.\n\n0 New Patients\n0 New Studies\n0 New Series\n1 New Instances\n",
         "Directory import completed.\n\n0 New Patients\n0 New Studies\n0 New Series\n2 New Instances\n"] := by
  decide

/-- C13, amended: a second `onImportDirectory` for an existing directory that
arrives through the event processing of `onFileIndexed` while a run is under
way (the progress dialog exists) is neither rejected nor queued: it is run at
once, inside the first. It resets the four counters, whatever they had
accumulated, so that after it they hold the numbers of notifications of the
second run alone; it starts a further indexing run (`addDirectory` is called
once more); and it shows its own summary if and only if the display flag is
set. -/
theorem second_import_runs_nested (filePath : String) (copyOnImport : Bool)
    (databaseDirectory directory : String) (inner : List Signal)
    (d : ctkDICOMBrowserPrivate) (hrun : d.IndexerProgress = true) :
    deliverEvent d (RunEvent.indexingFilePath_fileSelected filePath true copyOnImport
        databaseDirectory directory inner)
      = onImportDirectory true copyOnImport databaseDirectory directory inner
          (deliver d (Signal.indexingFilePath filePath)) ∧
    importCounters (deliverEvent d (RunEvent.indexingFilePath_fileSelected filePath true
        copyOnImport databaseDirectory directory inner))
      = (toInt32 (inner.countP Signal.isPatientAdded), toInt32 (inner.countP Signal.isStudyAdded),
         toInt32 (inner.countP Signal.isSeriesAdded),
         toInt32 (inner.countP Signal.isInstanceAdded)) ∧
    indexingRuns (deliverEvent d (RunEvent.indexingFilePath_fileSelected filePath true
        copyOnImport databaseDirectory directory inner)).calls
      = indexingRuns d.calls + 1 ∧
    (importSummaries (deliverEvent d (RunEvent.indexingFilePath_fileSelected filePath true
          copyOnImport databaseDirectory directory inner)).calls
        ≠ importSummaries d.calls ↔ displayImportSummary d = true) := by
  have hd : deliverEvent d (RunEvent.indexingFilePath_fileSelected filePath true copyOnImport
        databaseDirectory directory inner)
      = onImportDirectory true copyOnImport databaseDirectory directory inner
          (deliver d (Signal.indexingFilePath filePath)) := by
    simp only [deliverEvent, deliver, hrun, if_true, onFileIndexed]
  have hcalls : (deliver d (Signal.indexingFilePath filePath)).calls
      = d.calls ++ [Call.IndexerProgress_setLabelText filePath] := by
    simp only [deliver, hrun, if_true, onFileIndexed, ctkDICOMBrowserPrivate.call]
  obtain ⟨hc, hs⟩ := onImportDirectory_summary copyOnImport databaseDirectory directory inner
    (deliver d (Signal.indexingFilePath filePath))
  refine ⟨hd, ?_, ?_, ?_⟩
  · rw [hd, hc]
  · rw [hd, indexingRuns_onImportDirectory, hcalls, indexingRuns_append]
    rfl
  · rw [hd, hs, deliver_flag, deliver_summaries, displayImportSummary]
    cases d.DisplayImportSummary
    · simp
    · simp

/-- C13, amended, in the state reached by the first five events of the
concrete run of `/data`, where the counters hold 1, 1, 1 and 1: the
second import leaves them at 0, 0, 0 and 1 and brings the number of indexing
runs from 1 to 2. -/
theorem second_import_runs_nested_witness :
    importCounters ((exampleReentrantRun.take 5).foldl deliverEvent
        (importStart false "/db" "/data" {})) = (1, 1, 1, 1) ∧
    importCounters (deliverEvent ((exampleReentrantRun.take 5).foldl deliverEvent
        (importStart false "/db" "/data" {}))
        (RunEvent.indexingFilePath_fileSelected "/data/b.dcm" true false "/db" "/other"
          [Signal.indexingFilePath "/other/z.dcm", Signal.instanceAdded "9.9",
           Signal.indexingComplete]))
      = (0, 0, 0, 1) ∧
    indexingRuns (deliverEvent ((exampleReentrantRun.take 5).foldl deliverEvent
        (importStart false "/db" "/data" {}))
        (RunEvent.indexingFilePath_fileSelected "/data/b.dcm" true false "/db" "/other"
          [Signal.indexingFilePath "/other/z.dcm", Signal.instanceAdded "9.9",
           Signal.indexingComplete])).calls
      = 2 :=
  have h := second_import_runs_nested "/data/b.dcm" false "/db" "/other"
    [Signal.indexingFilePath "/other/z.dcm", Signal.instanceAdded "9.9",
     Signal.indexingComplete]
    ((exampleReentrantRun.take 5).foldl deliverEvent (importStart false "/db" "/data" {}))
    (by decide)
  ⟨by decide, h.2.1.trans (by decide), h.2.2.1.trans (by decide)⟩

/-! ## C14: the schema update and the binding of the model -/

/-- A call that neither asks for a schema upgrade nor binds the model. -/
theorem upgradesWhileSuspended_cons_other (b : ModelDatabase) (k : Call) (cs : List Call)
    (h1 : k ≠ Call.DICOMDatabase_updateSchemaIfNeeded)
    (h2 : ∀ db p, k ≠ Call.DICOMModel_setDatabase db p) :
    upgradesWhileSuspended b (k :: cs) = upgradesWhileSuspended b cs := by
  cases k <;> first
    | rfl
    | exact absurd rfl h1
    | exact absurd rfl (h2 _ _)

theorem upgradesWhileSuspended_other (b : ModelDatabase) (cs : List Call)
    (h : ∀ k ∈ cs, k ≠ Call.DICOMDatabase_updateSchemaIfNeeded ∧
      ∀ db p, k ≠ Call.DICOMModel_setDatabase db p) :
    upgradesWhileSuspended b cs = true := by
  induction cs with
  | nil => rfl
  | cons k ks ih =>
    obtain ⟨h1, h2⟩ := h k (List.mem_cons_self _ _)
    rw [upgradesWhileSuspended_cons_other b k ks h1 h2]
    exact ih fun k1 hk1 => h k1 (List.mem_cons_of_mem _ hk1)

theorem newCalls_of_append (d d1 : ctkDICOMBrowserPrivate) (cs : List Call)
    (h : d1.calls = d.calls ++ cs) : newCalls d d1 = cs := by
  unfold newCalls
  rw [h, List.drop_left]

theorem deliverSchema_spec (d : ctkDICOMBrowserPrivate) (e : SchemaSignal) :
    (deliverSchema d e).DICOMModel_database = d.DICOMModel_database ∧
    ∃ cs, (deliverSchema d e).calls = d.calls ++ cs ∧
      ∀ k ∈ cs, k ≠ Call.DICOMDatabase_updateSchemaIfNeeded ∧
        ∀ db p, k ≠ Call.DICOMModel_setDatabase db p := by
  unfold deliverSchema
  by_cases hdlg : d.UpdateSchemaProgress = true
  · simp only [hdlg, if_true]
    cases e
    · exact ⟨rfl, [_], rfl, by simp⟩
    · exact ⟨rfl, [_], rfl, by simp⟩
    · exact ⟨rfl, [_], rfl, by simp⟩
    · refine ⟨rfl, [Call.UpdateSchemaProgress_close, Call.DICOMModel_reset], ?_, by simp⟩
      simp [ctkDICOMBrowserPrivate.call]
    · exact ⟨rfl, [_], rfl, by simp⟩
  · simp only [hdlg]
    exact ⟨rfl, [], by simp, by simp⟩

theorem foldl_deliverSchema_spec (run : List SchemaSignal) :
    ∀ d : ctkDICOMBrowserPrivate,
      (run.foldl deliverSchema d).DICOMModel_database = d.DICOMModel_database ∧
      ∃ cs, (run.foldl deliverSchema d).calls = d.calls ++ cs ∧
        ∀ k ∈ cs, k ≠ Call.DICOMDatabase_updateSchemaIfNeeded ∧
          ∀ db p, k ≠ Call.DICOMModel_setDatabase db p := by
  induction run with
  | nil => intro d; exact ⟨rfl, [], by simp, by simp⟩
  | cons e es ih =>
    intro d
    obtain ⟨hb1, cs1, hc1, hn1⟩ := deliverSchema_spec d e
    obtain ⟨hb2, cs2, hc2, hn2⟩ := ih (deliverSchema d e)
    refine ⟨hb2.trans hb1, cs1 ++ cs2, ?_, ?_⟩
    · rw [List.foldl_cons, hc2, hc1, List.append_assoc]
    · intro k hk
      rcases List.mem_append.1 hk with h | h
      · exact hn1 k h
      · exact hn2 k h

/-- What `updateDatabaseSchemaIfNeeded` appends to the log: the dialog is
shown, the upgrade is requested, then come the calls of the slots, none of
which binds the model or requests an upgrade. -/
theorem updateDatabaseSchemaIfNeeded_calls (run : List SchemaSignal)
    (d : ctkDICOMBrowserPrivate) :
    (updateDatabaseSchemaIfNeeded run d).DICOMModel_database = d.DICOMModel_database ∧
    ∃ cs, (updateDatabaseSchemaIfNeeded run d).calls
        = d.calls ++
          (Call.UpdateSchemaProgress_show :: Call.DICOMDatabase_updateSchemaIfNeeded :: cs) ∧
      ∀ k ∈ cs, k ≠ Call.DICOMDatabase_updateSchemaIfNeeded ∧
        ∀ db p, k ≠ Call.DICOMModel_setDatabase db p := by
  obtain ⟨hb, cs, hc, hn⟩ := foldl_deliverSchema_spec run
    ((showUpdateSchemaDialog d).call Call.DICOMDatabase_updateSchemaIfNeeded)
  refine ⟨hb, cs, ?_, hn⟩
  unfold updateDatabaseSchemaIfNeeded
  rw [hc]
  simp [showUpdateSchemaDialog, ctkDICOMBrowserPrivate.call]

/-- C14, as stated, fails: with the model bound to the open database
`/db/ctkDICOM.sql`, `updateDatabaseSchemaIfNeeded` requests the upgrade while
the model is still bound to it and never binds the empty database; the same
happens inside `setDatabaseDirectory` when the directory is changed. -/
theorem upgrade_while_attached_counterexample :
    exampleAttached.DICOMModel_database
      = ModelDatabase.DICOMDatabase_database (some "/db/ctkDICOM.sql") ∧
    newCalls exampleAttached
        (updateDatabaseSchemaIfNeeded
          [SchemaSignal.schemaUpdateStarted 3, SchemaSignal.schemaUpdated] exampleAttached)
      = [Call.UpdateSchemaProgress_show, Call.DICOMDatabase_updateSchemaIfNeeded,
         Call.UpdateSchemaProgress_setMaximum 3, Call.UpdateSchemaProgress_close,
         Call.DICOMModel_reset] ∧
    upgradesWhileSuspended exampleAttached.DICOMModel_database
        (newCalls exampleAttached
          (updateDatabaseSchemaIfNeeded
            [SchemaSignal.schemaUpdateStarted 3, SchemaSignal.schemaUpdated] exampleAttached))
      = false ∧
    upgradesWhileSuspended exampleAttached.DICOMModel_database
        (newCalls exampleAttached
          (setDatabaseDirectory "/new" false "" [SchemaSignal.schemaUpdated] exampleAttached))
      = false := by
  decide

/-- C14, amended: `updateDatabaseSchemaIfNeeded` shows the schema-update
dialog and then asks the database to upgrade, and it never rebinds the model:
the model is bound to the same database after the call as before it, and the
upgrade takes place while the model is bound to the empty database exactly
when it was bound to it before the call; so it does after `suspendModel`. -/
theorem upgrade_keeps_model_binding (run : List SchemaSignal) (d : ctkDICOMBrowserPrivate) :
    (updateDatabaseSchemaIfNeeded run d).DICOMModel_database = d.DICOMModel_database ∧
    (newCalls d (updateDatabaseSchemaIfNeeded run d)).take 2
      = [Call.UpdateSchemaProgress_show, Call.DICOMDatabase_updateSchemaIfNeeded] ∧
    (∀ db p, Call.DICOMModel_setDatabase db p
      ∉ newCalls d (updateDatabaseSchemaIfNeeded run d)) ∧
    upgradesWhileSuspended d.DICOMModel_database (newCalls d (updateDatabaseSchemaIfNeeded run d))
      = decide (d.DICOMModel_database = ModelDatabase.EmptyDatabase) ∧
    upgradesWhileSuspended d.DICOMModel_database
        (newCalls d (updateDatabaseSchemaIfNeeded run (suspendModel d)))
      = true := by
  obtain ⟨hb, cs, hc0, hn⟩ := updateDatabaseSchemaIfNeeded_calls run d
  have hc := newCalls_of_append d _ _ hc0
  refine ⟨hb, ?_, ?_, ?_, ?_⟩
  · rw [hc]
    rfl
  · intro db p hmem
    rw [hc] at hmem
    simp only [List.mem_cons] at hmem
    rcases hmem with h | h | h
    · cases h
    · cases h
    · exact (hn _ h).2 db p rfl
  · rw [hc]
    simp only [upgradesWhileSuspended, upgradesWhileSuspended_other _ cs hn, Bool.and_true]
  · obtain ⟨_, cs2, hc2, hn2⟩ := updateDatabaseSchemaIfNeeded_calls run (suspendModel d)
    have hcalls : (updateDatabaseSchemaIfNeeded run (suspendModel d)).calls
        = d.calls ++ (Call.DICOMModel_setDatabase ModelDatabase.EmptyDatabase none ::
          Call.UpdateSchemaProgress_show :: Call.DICOMDatabase_updateSchemaIfNeeded :: cs2) := by
      rw [hc2]
      simp [suspendModel, DICOMModel_setDatabase, ctkDICOMBrowserPrivate.call]
    rw [newCalls_of_append d _ _ hcalls]
    simp only [upgradesWhileSuspended, upgradesWhileSuspended_other _ cs2 hn2, decide_True,
      Bool.and_true]

/-! ## C16: a database that cannot be opened -/

theorem setDatabaseDirectory_failed (directory lastError : String)
    (schemaRun : List SchemaSignal) (d : ctkDICOMBrowserPrivate) :
    setDatabaseDirectory directory true lastError schemaRun d
      = { d with
          settings_DatabaseDirectory := directory
          DICOMDatabase_openFile := none
          calls := d.calls ++
            [Call.DICOMDatabase_closeDatabase,
             Call.DICOMDatabase_openDatabase (directory ++ "/ctkDICOM.sql"),
             Call.std_cerr ("Database error: " ++ lastError ++ "\n"),
             Call.DICOMDatabase_closeDatabase] } := by
  simp [setDatabaseDirectory, DICOMDatabase_closeDatabase, ctkDICOMBrowserPrivate.call]

/-- C16, as stated, fails: the database `/db/ctkDICOM.sql` is open and the
setting holds `/db`; `setDatabaseDirectory("/new")` whose `openDatabase`
throws leaves no database open and `databaseDirectory()` returns `/new`. -/
theorem failed_open_counterexample :
    exampleAttached.DICOMDatabase_openFile = some "/db/ctkDICOM.sql" ∧
    databaseDirectory exampleAttached = "/db" ∧
    (setDatabaseDirectory "/new" true "unable to open" [] exampleAttached).DICOMDatabase_openFile
      = none ∧
    databaseDirectory (setDatabaseDirectory "/new" true "unable to open" [] exampleAttached)
      = "/new" := by
  decide

/-- C16, amended: when `openDatabase` throws in `setDatabaseDirectory`, the
operation is aborted after the database has been closed: no database is open
afterwards, the four calls made are `closeDatabase`, `openDatabase` for
`directory/ctkDICOM.sql`, the error line and `closeDatabase`; so the schema
update is not run, the model is not rebound (it keeps its binding),
`databaseDirectoryChanged` is not emitted and no widget is told the
directory. -/
theorem failed_open_aborts (directory lastError : String) (schemaRun : List SchemaSignal)
    (d : ctkDICOMBrowserPrivate) :
    (setDatabaseDirectory directory true lastError schemaRun d).DICOMDatabase_openFile = none ∧
    newCalls d (setDatabaseDirectory directory true lastError schemaRun d)
      = [Call.DICOMDatabase_closeDatabase,
         Call.DICOMDatabase_openDatabase (directory ++ "/ctkDICOM.sql"),
         Call.std_cerr ("Database error: " ++ lastError ++ "\n"),
         Call.DICOMDatabase_closeDatabase] ∧
    (setDatabaseDirectory directory true lastError schemaRun d).DICOMModel_database
      = d.DICOMModel_database ∧
    (∀ db p, Call.DICOMModel_setDatabase db p
      ∉ newCalls d (setDatabaseDirectory directory true lastError schemaRun d)) ∧
    Call.DICOMDatabase_updateSchemaIfNeeded
      ∉ newCalls d (setDatabaseDirectory directory true lastError schemaRun d) ∧
    (∀ dir, Call.emit_databaseDirectoryChanged dir
      ∉ newCalls d (setDatabaseDirectory directory true lastError schemaRun d)) := by
  have hc : newCalls d (setDatabaseDirectory directory true lastError schemaRun d)
      = [Call.DICOMDatabase_closeDatabase,
         Call.DICOMDatabase_openDatabase (directory ++ "/ctkDICOM.sql"),
         Call.std_cerr ("Database error: " ++ lastError ++ "\n"),
         Call.DICOMDatabase_closeDatabase] := by
    apply newCalls_of_append
    rw [setDatabaseDirectory_failed]
  rw [hc]
  refine ⟨?_, rfl, ?_, ?_, ?_, ?_⟩
  · rw [setDatabaseDirectory_failed]
  · rw [setDatabaseDirectory_failed]
  · intro db p
    simp
  · simp
  · intro dir
    simp

/-! ## C17: removal of whole subtrees -/

theorem removalRequests_removeIndex (M : ctkDICOMModel) (d : ctkDICOMBrowserPrivate)
    (index : QModelIndex) :
    removalRequests (removeIndex M d index).calls
      = removalRequests d.calls ++ (removalFor M index).toList := by
  unfold removeIndex removalFor
  rcases h : M.data_TypeRole (index.sibling M index.row 0) with _ | t
  · simp [h]
  · cases t <;>
      simp [h, removalRequests, ctkDICOMBrowserPrivate.call, List.filterMap_append]

theorem removalRequests_foldl (M : ctkDICOMModel) (selection : List QModelIndex) :
    ∀ d : ctkDICOMBrowserPrivate,
      removalRequests (selection.foldl (removeIndex M) d).calls
        = removalRequests d.calls ++ selection.filterMap (removalFor M) := by
  induction selection with
  | nil => intro d; simp
  | cons i is ih =>
    intro d
    rw [List.foldl_cons, ih, removalRequests_removeIndex, List.append_assoc]
    congr 1
    cases h : removalFor M i <;> simp [List.filterMap_cons, h]

/-- C17: for every selection, the removals `onRemoveAction` requests from the
database are, in the order of the selection, one for each selected index whose
row has a series, a study or a patient as its column-0 node: `removeSeries`,
`removeStudy` or `removePatient` respectively, with the unique identifier of
that node; a selected index whose node is an image (or of no type) gives rise
to no request. After the loop the model is reset. -/
theorem onRemoveAction_requests (M : ctkDICOMModel) (selection : List QModelIndex)
    (d : ctkDICOMBrowserPrivate) (index : QModelIndex) :
    removalRequests (onRemoveAction M selection d).calls
      = removalRequests d.calls ++ selection.filterMap (removalFor M) ∧
    (M.data_TypeRole (index.sibling M index.row 0) = some IndexType.SeriesType →
      removalRequests (removeIndex M d index).calls
        = removalRequests d.calls ++
          [(IndexType.SeriesType, M.data_UIDRole (index.sibling M index.row 0))] ∧
      (removeIndex M d index).calls
        = d.calls ++
          [Call.DICOMDatabase_removeSeries (M.data_UIDRole (index.sibling M index.row 0))]) ∧
    (M.data_TypeRole (index.sibling M index.row 0) = some IndexType.StudyType →
      removalRequests (removeIndex M d index).calls
        = removalRequests d.calls ++
          [(IndexType.StudyType, M.data_UIDRole (index.sibling M index.row 0))] ∧
      (removeIndex M d index).calls
        = d.calls ++
          [Call.DICOMDatabase_removeStudy (M.data_UIDRole (index.sibling M index.row 0))]) ∧
    (M.data_TypeRole (index.sibling M index.row 0) = some IndexType.PatientType →
      removalRequests (removeIndex M d index).calls
        = removalRequests d.calls ++
          [(IndexType.PatientType, M.data_UIDRole (index.sibling M index.row 0))] ∧
      (removeIndex M d index).calls
        = d.calls ++
          [Call.DICOMDatabase_removePatient (M.data_UIDRole (index.sibling M index.row 0))]) ∧
    (M.data_TypeRole (index.sibling M index.row 0) = some IndexType.ImageType →
      removeIndex M d index = d) ∧
    (onRemoveAction M selection d).calls.getLast? = some Call.DICOMModel_reset := by
  refine ⟨?_, ?_, ?_, ?_, ?_, ?_⟩
  · unfold onRemoveAction
    simp only [ctkDICOMBrowserPrivate.call, removalRequests, List.filterMap_append]
    have h := removalRequests_foldl M selection d
    simp only [removalRequests] at h
    rw [h]
    simp
  · intro h
    simp [removeIndex, h, removalRequests, ctkDICOMBrowserPrivate.call, List.filterMap_append]
  · intro h
    simp [removeIndex, h, removalRequests, ctkDICOMBrowserPrivate.call, List.filterMap_append]
  · intro h
    simp [removeIndex, h, removalRequests, ctkDICOMBrowserPrivate.call, List.filterMap_append]
  · intro h
    simp [removeIndex, h]
  · simp [onRemoveAction, ctkDICOMBrowserPrivate.call]

/-- C17 on the concrete selection (two cells of one series row, a cell of a
study row, an image): the series is requested once for each of its two cells,
the study once, and nothing is requested for the image. -/
theorem onRemoveAction_requests_witness :
    removalRequests (onRemoveAction exampleModel exampleSelection {}).calls
      = [(IndexType.SeriesType, "101.2"), (IndexType.SeriesType, "101.2"),
         (IndexType.StudyType, "10.1")] ∧
    removeIndex exampleModel {} exampleImage = {} ∧
    (removeIndex exampleModel {} exampleSeriesCell).calls
      = [Call.DICOMDatabase_removeSeries "101.2"] :=
  have h := onRemoveAction_requests exampleModel exampleSelection {} exampleImage
  have h2 := onRemoveAction_requests exampleModel exampleSelection {} exampleSeriesCell
  ⟨h.1.trans (by decide), h.2.2.2.2.1 (by decide), (h2.2.1 (by decide)).2.trans (by decide)⟩

/-! ## C15: a change of the search parameters -/

theorem onModelSelected_calls (M : ctkDICOMModel) (index : QModelIndex)
    (d : ctkDICOMBrowserPrivate) : (onModelSelected M index d).calls = d.calls := by
  unfold onModelSelected
  dsimp only
  split_ifs <;> rfl

theorem onModelSelected_setDatabase (M : ctkDICOMModel) (index : QModelIndex)
    (d : ctkDICOMBrowserPrivate) (db : ModelDatabase) (p : Option String) :
    navigationShown (onModelSelected M index (DICOMModel_setDatabase d db p))
        = navigationShown (onModelSelected M index d) ∧
      (onModelSelected M index (DICOMModel_setDatabase d db p)).ActionRemove
        = (onModelSelected M index d).ActionRemove := by
  refine ⟨?_, ?_⟩
  · rw [navigationShown_onModelSelected, navigationShown_onModelSelected]
  · rw [actionRemove_onModelSelected, actionRemove_onModelSelected]

theorem onSearchParameterChanged_calls (M : ctkDICOMModel) (parameters : String)
    (d : ctkDICOMBrowserPrivate) :
    (onSearchParameterChanged M parameters d).calls
      = d.calls ++
        [Call.DICOMModel_setDatabase (DICOMDatabase_database d) (some parameters),
         Call.ThumbnailsWidget_clearThumbnails,
         Call.ThumbnailsWidget_addThumbnails (M.index 0 0 QModelIndex.invalid),
         Call.ImagePreview_clearImages,
         Call.ImagePreview_onModelSelected (M.index 0 0 QModelIndex.invalid)] := by
  simp [onSearchParameterChanged, ctkDICOMBrowserPrivate.call, onModelSelected_calls,
    DICOMModel_setDatabase]

/-- C15: for every change of the parameters and every state before (so every
previous selection and every previous content `c` of the previews),
`onSearchParameterChanged` first issues the query again with the current
parameters, then hands one and the same node, the index at row 0, column 0 of
the new result set, to the selection handler (the buttons and the remove
action are those `onModelSelected` computes for it), to the thumbnails after
clearing them and to the image preview after clearing it. For a new result set
of `k >= 1` rows, whose first row is that node, both previews end populated for
it; for `k = 0` both previews end in the cleared, empty state. -/
theorem search_selects_first_row (M : ctkDICOMModel) (parameters : String)
    (d : ctkDICOMBrowserPrivate) (c : PreviewContent) :
    newCalls d (onSearchParameterChanged M parameters d)
      = [Call.DICOMModel_setDatabase (DICOMDatabase_database d) (some parameters),
         Call.ThumbnailsWidget_clearThumbnails,
         Call.ThumbnailsWidget_addThumbnails (M.index 0 0 QModelIndex.invalid),
         Call.ImagePreview_clearImages,
         Call.ImagePreview_onModelSelected (M.index 0 0 QModelIndex.invalid)] ∧
    navigationShown (onSearchParameterChanged M parameters d)
      = navigationShown (onModelSelected M (M.index 0 0 QModelIndex.invalid) d) ∧
    (onSearchParameterChanged M parameters d).ActionRemove
      = (onModelSelected M (M.index 0 0 QModelIndex.invalid) d).ActionRemove ∧
    (1 ≤ M.rowCount QModelIndex.invalid →
      (M.index 0 0 QModelIndex.invalid).isValid = true →
      (M.index 0 0 QModelIndex.invalid).row = 0 →
      (M.index 0 0 QModelIndex.invalid).parent M = QModelIndex.invalid →
      thumbnailsContent M c (newCalls d (onSearchParameterChanged M parameters d))
        = PreviewContent.populated (M.index 0 0 QModelIndex.invalid) ∧
      imagePreviewContent M c (newCalls d (onSearchParameterChanged M parameters d))
        = PreviewContent.populated (M.index 0 0 QModelIndex.invalid)) ∧
    (M.rowCount QModelIndex.invalid = 0 →
      ((M.index 0 0 QModelIndex.invalid).isValid = true →
        (M.index 0 0 QModelIndex.invalid).parent M = QModelIndex.invalid) →
      thumbnailsContent M c (newCalls d (onSearchParameterChanged M parameters d))
        = PreviewContent.empty ∧
      imagePreviewContent M c (newCalls d (onSearchParameterChanged M parameters d))
        = PreviewContent.empty) := by
  have hc := newCalls_of_append d _ _ (onSearchParameterChanged_calls M parameters d)
  rw [hc]
  refine ⟨rfl, ?_, ?_, ?_, ?_⟩
  · have h : navigationShown (onSearchParameterChanged M parameters d)
        = navigationShown (onModelSelected M (M.index 0 0 QModelIndex.invalid)
          (DICOMModel_setDatabase d (DICOMDatabase_database d) (some parameters))) := by
      simp only [onSearchParameterChanged, ctkDICOMBrowserPrivate.call, navigationShown]
    rw [h]
    exact (onModelSelected_setDatabase M _ d _ _).1
  · have h : (onSearchParameterChanged M parameters d).ActionRemove
        = (onModelSelected M (M.index 0 0 QModelIndex.invalid)
          (DICOMModel_setDatabase d (DICOMDatabase_database d) (some parameters))).ActionRemove := by
      simp only [onSearchParameterChanged, ctkDICOMBrowserPrivate.call]
    rw [h]
    exact (onModelSelected_setDatabase M _ d _ _).2
  · intro hk hv hr hp
    have hh : holdsNode M (M.index 0 0 QModelIndex.invalid) = true := by
      simp only [holdsNode, hv, hr, hp, Bool.true_and, decide_eq_true_eq]
      omega
    simp [thumbnailsContent, imagePreviewContent, hh]
  · intro hk hwf
    have hh : holdsNode M (M.index 0 0 QModelIndex.invalid) = false := by
      by_cases hv : (M.index 0 0 QModelIndex.invalid).isValid = true
      · have hr := ((isValid_iff _).1 hv).1
        simp only [holdsNode, hv, hwf hv, hk, Bool.true_and, decide_eq_false_iff_not,
          QModelIndex.row]
        omega
      · simp [holdsNode, hv]
    simp [thumbnailsContent, imagePreviewContent, hh]

/-- C15 in the concrete hierarchy, with previews populated for the last image
before the call: with one patient in the new result set both previews end
populated for the patient at row 0; with the empty result set both end
empty. -/
theorem search_selects_first_row_witness :
    thumbnailsContent exampleModel (PreviewContent.populated exampleImage)
        (newCalls exampleAttached
          (onSearchParameterChanged exampleModel "PatientsName=Doe*" exampleAttached))
      = PreviewContent.populated examplePatient ∧
    imagePreviewContent exampleModel (PreviewContent.populated exampleImage)
        (newCalls exampleAttached
          (onSearchParameterChanged exampleModel "PatientsName=Doe*" exampleAttached))
      = PreviewContent.populated examplePatient ∧
    thumbnailsContent exampleEmptyModel (PreviewContent.populated exampleImage)
        (newCalls exampleAttached
          (onSearchParameterChanged exampleEmptyModel "PatientsName=Nobody" exampleAttached))
      = PreviewContent.empty ∧
    imagePreviewContent exampleEmptyModel (PreviewContent.populated exampleImage)
        (newCalls exampleAttached
          (onSearchParameterChanged exampleEmptyModel "PatientsName=Nobody" exampleAttached))
      = PreviewContent.empty :=
  have h1 := (search_selects_first_row exampleModel "PatientsName=Doe*" exampleAttached
    (PreviewContent.populated exampleImage)).2.2.2.1 (by decide) (by decide) (by decide)
    (by decide)
  have h2 := (search_selects_first_row exampleEmptyModel "PatientsName=Nobody" exampleAttached
    (PreviewContent.populated exampleImage)).2.2.2.2 (by decide) (by decide)
  ⟨h1.1, h1.2, h2.1, h2.2⟩

/-! ## C18: the position slider after an image step -/

